import Mathlib

/-!
Verification development for the Pelagic Laser Tomographer firmware
(directory `Firmware/Code`).  The C++ classes `Camera`, `Laser`,
`Switches`, `Sensors`, `FileSystem` and `Commands` are shallowly embedded
as pure Lean functions over explicit state records.  Machine integers are
modelled as `Nat`/`Int` with explicit `% 2^w` at the points where the C
code converts between widths.  Hardware side effects (pin pulses, file
writes) are modelled as explicit event lists so that "how many pulses /
writes happened" is part of the function's result.

Functions that are declared in `pltlogger.h` but whose definitions live in
the main sketch outside `Firmware/Code` (`snapAndLog`, `setFrameInterval`,
`setBurstSize`, `setLaserContinuous`) are modelled from the specification
and carry a doc comment saying so.
-/

namespace PLT

/-! ## Shared constants (`pltlogger.h`) -/

def SOFTWARE_OFF : Nat := 0

def SOFTWARE_BOOTING : Nat := 1

def SOFTWARE_ERRORS : Nat := 2

def SOFTWARE_READY : Nat := 3

def SOFTWARE_RUNNING : Nat := 4

def HARDWARE_OFF : Nat := 0

def HARDWARE_BOOTING : Nat := 1

def HARDWARE_ERRORS : Nat := 2

def HARDWARE_WARNINGS : Nat := 3

def HARDWARE_READY : Nat := 4

def CAMERA_OFF : Nat := 0

def CAMERA_BOOTING : Nat := 1

def CAMERA_READY : Nat := 2

def CAMERA_SHOOTING : Nat := 3

def DEFAULT_FRAME_INTERVAL : Nat := 1000

def DEFAULT_BURST_SIZE : Nat := 1

def MINIMUM_FRAME_INTERVAL : Nat := 200

/-! ## Camera (`Camera.h`) -/

namespace Camera

def CAMERA_SHUTTER_DELAY : Nat := 50

def CAMERA_RELAY_DELAY : Nat := 10

def CAMERA_POWERUP_DELAY : Nat := 15000

/-- Result of one `Camera::setPower(onOff, force)` call: how many HIGH/LOW
pulses were sent down the camera power-toggle relay line, what (if
anything) was done to the intensifier's set/unset relay lines, and the new
presumed `powerStatus`. -/
structure SetPowerEffect where
  cameraTogglePulses : Nat
  intensifierSetTo : Option Bool
  powerStatus : Bool
  deriving DecidableEq, Repr

/-- Model of `Camera::setPower` (Camera.h lines 216-287).  If `force` is false and
the presumed state already matches `onOff` the call returns without
touching any pin.  Otherwise it pulses the camera power toggle relay once,
pulses the intensifier set pin (for `onOff = true`) or unset pin (for
`onOff = false`), waits out the power-up delay when turning on, and records
`powerStatus = onOff`. -/
def setPower (onOff force powerStatus : Bool) : SetPowerEffect :=
  if force = false && powerStatus = onOff then
    { cameraTogglePulses := 0, intensifierSetTo := none, powerStatus := powerStatus }
  else
    { cameraTogglePulses := 1, intensifierSetTo := some onOff, powerStatus := onOff }

/-- One shutter trip: the shutter pin is held HIGH for `pulseMs` and the
loop then waits `recoveryMs` before the next trip. -/
structure ShutterTrip where
  pulseMs : Nat
  recoveryMs : Nat
  deriving DecidableEq, Repr

/-- Model of `Camera::snap` (Camera.h lines 306-322).  If the presumed power is off
the call returns without tripping the shutter; otherwise it trips the
shutter once per loop iteration, `nImages` times, each trip a
`CAMERA_RELAY_DELAY` HIGH pulse followed by a `CAMERA_SHUTTER_DELAY`
recovery wait. -/
def snap (powerStatus : Bool) (nImages : Nat) : List ShutterTrip :=
  if powerStatus = false then []
  else List.replicate nImages
    { pulseMs := CAMERA_RELAY_DELAY, recoveryMs := CAMERA_SHUTTER_DELAY }

end Camera

/-! ## Laser (`Laser.h`) -/

namespace Laser

def LASER_WARMUP_DELAY : Nat := 50

/-- Model of `Laser::setPower` (Laser.h lines 179-210).  Returns the new presumed
power state; if the presumed state already matches, nothing happens. -/
def setPower (onOff powerStatus : Bool) : Bool :=
  if powerStatus = onOff then powerStatus else onOff

end Laser

/-- Modelled from the spec: `snapAndLog` is declared in `pltlogger.h` but
its definition (the Run Controller's Snap-And-Log cycle body) is not under
`src/`.  Per the specification a capture event trips the camera shutter
`burstSize` times via the camera driver, with the camera powered on, and
the tie-break rule says a `burstSize` of at most 1 produces exactly one
shutter trip.  Only the shutter-trip part of the cycle is needed here. -/
def snapAndLogShutterTrips (burstSize : Nat) : List Camera.ShutterTrip :=
  Camera.snap true (if burstSize ≤ 1 then 1 else burstSize)

/-! ## Switches (`Switches.h`)

The start/stop switch debouncer.  `millis()` is modelled as a `Nat`
argument of each update tick; the C `uint32` subtraction
`millis() - lastDebounceMillis` is modelled with an explicit `% 2^32`. -/

namespace Switches

def SWITCH_DEBOUNCE_PERIOD : Nat := 50

def SWITCH_DOWN : Nat := 0

def SWITCH_UP : Nat := 1

structure State where
  lastDebounceMillis : Nat
  count : Nat
  previousSteadyState : Nat
  lastSteadyState : Nat
  lastFlickerableState : Nat
  deriving DecidableEq, Repr

/-- Model of `Switches::init` (Switches.h lines 61-76) with the initial reading of
the switch pin passed in. -/
def init (pinState : Nat) : State :=
  { lastDebounceMillis := 0, count := 0, previousSteadyState := pinState,
    lastSteadyState := pinState, lastFlickerableState := pinState }

/-- The C expression `millis() - lastDebounceMillis` on `uint32_t`. -/
def elapsed32 (now lastDebounceMillis : Nat) : Nat :=
  (now + 2 ^ 32 - lastDebounceMillis % 2 ^ 32) % 2 ^ 32

/-- Model of `Switches::update` (Switches.h lines 86-114) for one tick reading
`pinState` from the switch pin at time `now`. -/
def update (pinState now : Nat) (s : State) : State :=
  let s :=
    if pinState ≠ s.lastFlickerableState then
      { s with lastDebounceMillis := now, lastFlickerableState := pinState }
    else s
  let s :=
    if SWITCH_DEBOUNCE_PERIOD ≤ elapsed32 now s.lastDebounceMillis then
      { s with previousSteadyState := s.lastSteadyState, lastSteadyState := pinState }
    else s
  if s.previousSteadyState ≠ s.lastSteadyState ∧ s.lastSteadyState = SWITCH_UP then
    { s with count := (s.count + 1) % 2 ^ 16 }
  else s

/-- Model of `Switches::isStartStopPressed` (Switches.h lines 122-133): consume the
pending press count, returning whether it was nonzero. -/
def isStartStopPressed (s : State) : Bool × State :=
  if 0 < s.count then (true, { s with count := 0 }) else (false, s)

/-- Run a list of update ticks, each a `(pinState, now)` pair. -/
def runUpdates (s : State) (ticks : List (Nat × Nat)) : State :=
  ticks.foldl (fun s t => update t.1 t.2 s) s

/-- Number of raw press (UP to DOWN) transitions seen by a tick sequence,
starting from a previous pin level `prev`. -/
def rawPresses (prev : Nat) : List (Nat × Nat) → Nat
  | [] => 0
  | t :: ts =>
      (if prev = SWITCH_UP ∧ t.1 = SWITCH_DOWN then 1 else 0) + rawPresses t.1 ts

end Switches

/-! ## Sensors (`Sensors.h`)

Sensor readings are physical quantities; the exact float arithmetic is not
at issue in any claim, so values are modelled as rationals.  Each C++
reader writes through out-parameters; the model takes the caller's current
values of those out-parameters and returns their new values. -/

namespace Sensors

def BAD_WATER_TEMPERATURE : ℚ := -274

/-- The raw values a present LSM9DS1 inertial module would deliver for one
`getEvent` call. -/
structure InertiaEvent where
  accelX : ℚ
  accelY : ℚ
  accelZ : ℚ
  magX : ℚ
  magY : ℚ
  magZ : ℚ
  gyroX : ℚ
  gyroY : ℚ
  gyroZ : ℚ
  rawTemperature : ℚ
  deriving DecidableEq, Repr

/-- The out-parameters of `Sensors::getInertia`. -/
structure InertiaOut where
  accel : ℚ × ℚ × ℚ
  mag : ℚ × ℚ × ℚ
  gyro : ℚ × ℚ × ℚ
  temp : ℚ
  deriving DecidableEq, Repr

/-- Model of `Sensors::getInertia` (Sensors.h lines 283-331).  When the sensor is
absent the nine vector out-parameters are set to zero and the function
returns; the `temp` out-parameter keeps whatever value the caller passed
in.  When present, the event values are copied out and the raw temperature
is converted to Celsius. -/
def getInertia (isInertiaSensorPresent : Bool) (ev : InertiaEvent)
    (callerTemp : ℚ) : InertiaOut :=
  if isInertiaSensorPresent = false then
    { accel := (0, 0, 0), mag := (0, 0, 0), gyro := (0, 0, 0), temp := callerTemp }
  else
    { accel := (ev.accelX, ev.accelY, ev.accelZ),
      mag := (ev.magX, ev.magY, ev.magZ),
      gyro := (ev.gyroX, ev.gyroY, ev.gyroZ),
      temp := ev.rawTemperature / 16 + 27.5 }

/-- Model of `Sensors::getWaterPressure` (Sensors.h lines 344-365).  When the sensor
is absent both out-parameters are set to zero. -/
def getWaterPressure (isPressureSensorPresent : Bool)
    (sensorPressure sensorDepth : ℚ) : ℚ × ℚ :=
  if isPressureSensorPresent = false then (0, 0)
  else (sensorPressure, sensorDepth)

/-- Model of `Sensors::getWaterTemperature` (Sensors.h lines 376-392).  When the
sensor is absent the out-parameter is set to zero; a reading at or below
absolute zero is also replaced by zero. -/
def getWaterTemperature (isTemperatureSensorPresent : Bool)
    (sensorTemperature : ℚ) : ℚ :=
  if isTemperatureSensorPresent = false then 0
  else if sensorTemperature ≤ BAD_WATER_TEMPERATURE then 0
  else sensorTemperature

end Sensors

/-! ## C character and number formatting helpers

These model the pieces of the C standard library the firmware leans on:
`isSpace`, `atoi`, and `sprintf`'s `%ld` / `%d` conversions.  C strings are
modelled as `List Char`. -/

/-- C `isSpace`: space, horizontal tab, newline, vertical tab, form feed,
carriage return. -/
def isSpaceChar (c : Char) : Bool :=
  c = ' ' || c = '\t' || c = '\n' || c = '\x0b' || c = '\x0c' || c = '\r'

/-- ASCII decimal digit test. -/
def isDigitChar (c : Char) : Bool :=
  '0' ≤ c && c ≤ '9'

/-- The ASCII character for a decimal digit. -/
def digitChar (d : Nat) : Char :=
  match d with
  | 0 => '0'
  | 1 => '1'
  | 2 => '2'
  | 3 => '3'
  | 4 => '4'
  | 5 => '5'
  | 6 => '6'
  | 7 => '7'
  | 8 => '8'
  | 9 => '9'
  | _ => '?'

/-- The value of an ASCII decimal digit character. -/
def digitVal (c : Char) : Nat :=
  c.toNat - 48

/-- Most-significant-first decimal digits, with a fuel bound on the
recursion depth; the value shrinks by a factor of ten each step, so any
fuel of at least the value itself is enough (and with fuel 0 the value is
0, whose digit list the base case returns). -/
def natDecDigitsAux : Nat → Nat → List Nat
  | 0, n => [n]
  | fuel + 1, n => if n < 10 then [n] else natDecDigitsAux fuel (n / 10) ++ [n % 10]

/-- Most-significant-first decimal digits of a natural number ('0' alone
for zero), as `sprintf` renders them. -/
def natDecDigits (n : Nat) : List Nat :=
  natDecDigitsAux n n

/-- The number denoted by a most-significant-first decimal digit list. -/
def decValue (ds : List Nat) : Nat :=
  ds.foldl (fun a d => 10 * a + d) 0

/-- Decimal character rendering of a natural number. -/
def natDecChars (n : Nat) : List Char :=
  (natDecDigits n).map digitChar

/-- Decimal character rendering of an integer: `sprintf("%ld", v)`. -/
def intDecChars (v : Int) : List Char :=
  if v < 0 then '-' :: natDecChars v.natAbs else natDecChars v.toNat

/-- Reinterpret a `uint32_t` value as the signed 32-bit `long` that
`sprintf("%ld", ...)` receives on this 32-bit target. -/
def toSigned32 (n : Nat) : Int :=
  if n % 2 ^ 32 < 2 ^ 31 then (n % 2 ^ 32 : Nat) else (n % 2 ^ 32 : Nat) - 2 ^ 32

/-- The C conversion of a (possibly negative) `int` to `uint32_t`. -/
def toUInt32bits (v : Int) : Nat :=
  (v % 2 ^ 32).toNat

/-- The C conversion of a (possibly negative) `int` to `uint8_t`. -/
def toUInt8bits (v : Int) : Nat :=
  (v % 2 ^ 8).toNat

/-- C `atoi`: skip leading white space, read an optional sign, and consume
decimal digits up to the first non-digit.  Overflow behaviour is undefined
in C and is never exercised by the strings this development evaluates
`cAtoi` on. -/
def cAtoi (s : List Char) : Int :=
  match s.dropWhile isSpaceChar with
  | [] => 0
  | c :: rest =>
    if c = '-' then -(decValue ((rest.takeWhile isDigitChar).map digitVal) : Int)
    else if c = '+' then (decValue ((rest.takeWhile isDigitChar).map digitVal) : Int)
    else (decValue (((c :: rest).takeWhile isDigitChar).map digitVal) : Int)

/-! ## FileSystem (`FileSystem.h`, `FileSystem.cpp`) -/

namespace FileSystem

def FS_ERROR_NONE : Nat := 0

def FS_ERROR_UNINITIALIZED : Nat := 1

def FS_ERROR_NOCARD : Nat := 2

def FS_ERROR_BAD_FORMAT : Nat := 3

def FS_ERROR_CARD_FULL : Nat := 4

def FS_ERROR_TOO_MANY_LOG_FILES : Nat := 5

def FS_ERROR_BAD_PATH : Nat := 6

def SD_CARD_ERROR_NONE : Nat := 0

def MAX_LOG_FILES : Nat := 100

def BUFFER_SIZE : Nat := 1025

/-- Loop body of `FileSystem::readLine` (FileSystem.cpp lines 292-305):
`acc` holds the bytes stored so far (most recent first).  Before each read
the stored count is checked against `BUFFER_SIZE - 1`; a `'\r'` byte is
skipped without being stored, a `'\n'` byte ends the line, anything else is
stored. -/
def readLineAux : List Char → List Char → List Char × List Char
  | acc, [] => (acc.reverse, [])
  | acc, c :: rest =>
    if BUFFER_SIZE - 1 ≤ acc.length then (acc.reverse, c :: rest)
    else if c = '\r' then readLineAux acc rest
    else if c = '\n' then (acc.reverse, rest)
    else readLineAux (c :: acc) rest

/-- Model of `FileSystem::readLine` on remaining file content `cs`: returns the line
read (without `'\r'`/`'\n'`) and the content left unread. -/
def readLine (cs : List Char) : List Char × List Char :=
  readLineAux [] cs

/-- Model of `FileSystem::parseLine` (FileSystem.cpp lines 251-279): split a line
into its first word and the rest of the line after the following white
space. -/
def parseLine (line : List Char) : List Char × List Char :=
  let s := line.dropWhile isSpaceChar
  let name := s.takeWhile (fun c => !isSpaceChar c)
  match s.dropWhile (fun c => !isSpaceChar c) with
  | [] => (name, [])
  | _ :: t => (name, t.dropWhile isSpaceChar)

/-- The three persisted run settings, in their C types: `interval` is a
`uint32_t`, `burstSize` a `uint8_t`. -/
structure RunSettings where
  interval : Nat
  isLaserContinuous : Bool
  burstSize : Nat
  deriving DecidableEq, Repr

/-- One iteration body of the `loadSettings` line loop (FileSystem.cpp
lines 682-707): parse the line, ignore it unless it has both a name and a
value, and assign the recognized settings through the C out-parameter
conversions (`int` to `uint32_t` / `uint8_t`). -/
def applySettingsLine (st : RunSettings) (line : List Char) : RunSettings :=
  let nv := parseLine line
  if nv.1 = [] ∨ nv.2 = [] then st
  else if nv.1 = "interval".data then
    { st with interval := toUInt32bits (cAtoi nv.2) }
  else if nv.1 = "burstsize".data then
    { st with burstSize := toUInt8bits (cAtoi nv.2) }
  else if nv.1 = "lasercontinuous".data then
    { st with isLaserContinuous := cAtoi nv.2 = 1 }
  else st

/-- The `while (readLine(file) > 0)` loop of `loadSettings`.  The fuel only
bounds the iteration count; every iteration that does not stop strictly
consumes input, so `cs.length + 1` fuel is always enough. -/
def loadSettingsLoop : Nat → RunSettings → List Char → RunSettings
  | 0, st, _ => st
  | fuel + 1, st, cs =>
    let lr := readLine cs
    if lr.1 = [] then st
    else loadSettingsLoop fuel (applySettingsLine st lr.1) lr.2

/-- Model of `FileSystem::loadSettings` (FileSystem.cpp lines 660-711) reading the
settings file content `cs`, where `st` holds the caller's current values of
the three out-parameters (they are left alone by unrecognized, malformed or
absent lines). -/
def loadSettings (st : RunSettings) (cs : List Char) : RunSettings :=
  loadSettingsLoop (cs.length + 1) st cs

/-- The bytes `FileSystem::saveSettings` (FileSystem.cpp lines 729-769)
writes: `sprintf(buffer, "interval %ld\r\nburstsize %d\r\nlasercontinuous
%d\r\n", interval, burstSize, isLaserContinuous ? 1 : 0)`.  The `uint32_t`
interval is printed through `%ld`, i.e. reinterpreted as a signed 32-bit
long. -/
def saveSettingsContent (interval : Nat) (isLaserContinuous : Bool)
    (burstSize : Nat) : List Char :=
  "interval ".data ++ intDecChars (toSigned32 interval) ++ "\r\n".data ++
    "burstsize ".data ++ natDecChars burstSize ++ "\r\n".data ++
    "lasercontinuous ".data ++
    (if isLaserContinuous then "1".data else "0".data) ++ "\r\n".data

/-- File content after a successful `saveSettings`.  The file is opened
with `O_WRONLY|O_CREAT` and no `O_TRUNC`, so an existing file is not
truncated: the new bytes overwrite a prefix of the previous content
(`prior`, empty for a missing file) and any previous bytes beyond the newly
written ones survive. -/
def saveSettingsFile (prior : List Char) (interval : Nat)
    (isLaserContinuous : Bool) (burstSize : Nat) : List Char :=
  let content := saveSettingsContent interval isLaserContinuous burstSize
  content ++ prior.drop content.length

/-! ### Data log file -/

/-- The mutable `FileSystem` statics relevant to the data log, plus the set
of `DATA_nn.CSV` files on the card (as their indices `nn`).  `logLines` is
the line content of the currently open log file. -/
structure FsState where
  initialized : Bool
  logOpen : Bool
  logLines : List (List Char)
  numberOfDataLogEntries : Nat
  localErrorCode : Nat
  cardErrorCode : Nat
  dataFiles : List Nat
  deriving DecidableEq, Repr

/-- Physical card actions an operation performs, in order.  A write attempt
is recorded once per `logFile.write` call the C code makes. -/
inductive FsEvent where
  | fileCreate (index : Nat)
  | fileRemove (index : Nat)
  | headerWriteAttempt
  | rowWriteAttempt (row : List Char)
  deriving DecidableEq, Repr

/-- The SD card's response to one write-and-sync: whether `write` returned
the full byte count, whether `sync` succeeded, the card's current sector
count, and the SdFat error code `sd.sdErrorCode()` would report. -/
structure SdEnv where
  writeOk : Bool
  syncOk : Bool
  sectorCount : Nat
  sdErrorCode : Nat
  deriving DecidableEq, Repr

/-- Double-quote a string field, as the `\"%s\"` conversions do. -/
def quoted (s : List Char) : List Char :=
  '"' :: (s ++ ['"'])

/-- The data log column names, in the order `writeDataLogHeader`
(FileSystem.cpp lines 420-508) prints them with `BATTERY_IN_DATA_LOG`
defined (it is defined in FileSystem.h line 8). -/
def dataLogColumns : List (List Char) :=
  ["Timestamp".data, "Milliseconds".data, "Pressure".data, "Depth".data,
   "Water_Temperature".data, "Device_Temperature".data,
   "Acceleration_X".data, "Acceleration_Y".data, "Acceleration_Z".data,
   "Magnetic_X".data, "Magnetic_Y".data, "Magnetic_Z".data,
   "Gyroscope_X".data, "Gyroscope_Y".data, "Gyroscope_Z".data,
   "Controller_Volts".data, "Controller_Percent".data,
   "Main_Volts".data, "Main_Percent".data]

/-- The header line `writeDataLogHeader` writes: every column name
double-quoted, comma separated, with a `\r\n` terminator. -/
def dataLogHeaderLine : List Char :=
  List.intercalate [','] (dataLogColumns.map quoted) ++ "\r\n".data

/-- The float-valued fields of one data row, each taken as the character
string that `sprintf`'s `%f`-family conversion produces for it; no claim
constrains the decimal rendering of a float. -/
structure DataLogFloats where
  pressure : List Char
  depth : List Char
  waterTemperature : List Char
  deviceTemperature : List Char
  accelX : List Char
  accelY : List Char
  accelZ : List Char
  magX : List Char
  magY : List Char
  magZ : List Char
  gyroX : List Char
  gyroY : List Char
  gyroZ : List Char
  controllerVolts : List Char
  controllerPercent : List Char
  mainVolts : List Char
  mainPercent : List Char
  deriving DecidableEq, Repr

/-- The nineteen field strings of one data row, in the order the
`writeDataLog` format string `"\"%s\",%ld,%f,..."` places them: the quoted
timestamp, the `%ld`-printed `uint32_t` millisecond offset, then the
seventeen float fields. -/
def dataLogRowFields (dt : List Char) (ms : Nat) (f : DataLogFloats) :
    List (List Char) :=
  [quoted dt, intDecChars (toSigned32 ms),
   f.pressure, f.depth, f.waterTemperature, f.deviceTemperature,
   f.accelX, f.accelY, f.accelZ, f.magX, f.magY, f.magZ,
   f.gyroX, f.gyroY, f.gyroZ,
   f.controllerVolts, f.controllerPercent, f.mainVolts, f.mainPercent]

/-- One CSV data row as `writeDataLog` formats it. -/
def dataLogRow (dt : List Char) (ms : Nat) (f : DataLogFloats) : List Char :=
  List.intercalate [','] (dataLogRowFields dt ms f) ++ "\r\n".data

/-- Shared failure bookkeeping of `writeDataLogHeader` and `writeDataLog`
(FileSystem.cpp lines 492-504 and 619-630): record the SdFat error code,
guess `NOCARD` when the card reports no sectors and `CARD_FULL` otherwise,
close the file, and zero the entry counter. -/
def writeFailState (env : SdEnv) (s : FsState) : FsState :=
  { s with cardErrorCode := env.sdErrorCode,
           localErrorCode :=
             if env.sectorCount = 0 then FS_ERROR_NOCARD else FS_ERROR_CARD_FULL,
           logOpen := false,
           numberOfDataLogEntries := 0 }

/-- Model of `FileSystem::writeDataLogHeader` (FileSystem.cpp lines 420-508):
returns false with no write attempt when no log file is open; otherwise
attempts exactly one write-and-sync of the header line. -/
def writeDataLogHeader (env : SdEnv) (s : FsState) :
    Bool × FsState × List FsEvent :=
  if s.logOpen = false then (false, s, [])
  else if env.writeOk && env.syncOk then
    (true, { s with logLines := s.logLines ++ [dataLogHeaderLine] },
     [FsEvent.headerWriteAttempt])
  else
    (false, writeFailState env s, [FsEvent.headerWriteAttempt])

/-- Model of `FileSystem::writeDataLog` (FileSystem.cpp lines 561-635): returns
false with no write attempt when no log file is open; otherwise formats the
row and attempts exactly one write-and-sync of it.  On success the entry
counter is incremented; on failure the file is closed and the counter
zeroed.  (A failed `write` may have left part of the row in the now-closed
file; no claim depends on the bytes of a closed file, so `logLines` is left
as-is on failure.) -/
def writeDataLog (env : SdEnv) (dt : List Char) (ms : Nat)
    (f : DataLogFloats) (s : FsState) : Bool × FsState × List FsEvent :=
  if s.logOpen = false then (false, s, [])
  else
    let row := dataLogRow dt ms f
    if env.writeOk && env.syncOk then
      (true,
       { s with logLines := s.logLines ++ [row],
                numberOfDataLogEntries := (s.numberOfDataLogEntries + 1) % 2 ^ 32 },
       [FsEvent.rowWriteAttempt row])
    else
      (false, writeFailState env s, [FsEvent.rowWriteAttempt row])

/-- The card's responses during `newDataLog`: whether
`logFile.open(..., O_WRONLY|O_CREAT)` succeeds, the SdFat error code after
a failed open, and the `SdEnv` for the header write. -/
structure NewLogEnv where
  openOk : Bool
  openSdErrorCode : Nat
  header : SdEnv
  deriving DecidableEq, Repr

/-- Model of `FileSystem::newDataLog` (FileSystem.cpp lines 339-385): close any
prior log, reset the counter and error codes, scan indices `0..99` for the
first with no `DATA_nn.CSV` on the card, create and open that file, and
write the header.  If the header write fails the new file is removed.  If
every index is taken, nothing is created and the error is
`TOO_MANY_LOG_FILES`. -/
def newDataLog (env : NewLogEnv) (s : FsState) :
    Bool × FsState × List FsEvent :=
  if s.initialized = false then (false, s, [])
  else
    let s0 : FsState :=
      { s with logOpen := false, logLines := [],
               numberOfDataLogEntries := 0,
               localErrorCode := FS_ERROR_NONE,
               cardErrorCode := SD_CARD_ERROR_NONE }
    match (List.range MAX_LOG_FILES).find? (fun i => decide (i ∉ s0.dataFiles)) with
    | none =>
        (false, { s0 with localErrorCode := FS_ERROR_TOO_MANY_LOG_FILES }, [])
    | some i =>
        if env.openOk then
          let s1 : FsState := { s0 with logOpen := true, dataFiles := s0.dataFiles ++ [i] }
          match writeDataLogHeader env.header s1 with
          | (true, s2, evs) => (true, s2, FsEvent.fileCreate i :: evs)
          | (false, s2, evs) =>
              (false, { s2 with dataFiles := s2.dataFiles.filter (· ≠ i) },
               FsEvent.fileCreate i :: evs ++ [FsEvent.fileRemove i])
        else
          -- Open failed, so the file was not created.  The code records the
          -- SdFat error (guessing NOCARD on a missing card), then calls
          -- writeDataLogHeader, which returns false with no open file, and
          -- removes the never-created filename.
          (false,
           { s0 with cardErrorCode := env.openSdErrorCode,
                     localErrorCode :=
                       if env.header.sectorCount = 0 then FS_ERROR_NOCARD
                       else s0.localErrorCode },
           [FsEvent.fileRemove i])

end FileSystem

/-! ## Run controller state and the command dispatcher (`Commands.cpp`)

The dispatcher's configuration and action commands are the ones that can
touch the run settings or the presumed actuator power; the informational
and file commands read state only.  A command is modelled after
`Commands::parseLine` has split it into a word and an argument and the
argument has been through the source's own `atoi`/`strcmp`/`strncmp`
handling. -/

/-- The C conversion of a (possibly negative) `int` to `uint16_t`. -/
def toUInt16bits (v : Int) : Nat :=
  (v % 2 ^ 16).toNat

/-- The global device state the commands read and write: the three status
enums, the run settings, and the presumed power state of the camera (with
intensifier) and laser actuators. -/
structure DeviceState where
  hardwareStatus : Nat
  softwareStatus : Nat
  cameraStatus : Nat
  frameInterval : Nat
  burstSize : Nat
  laserContinuous : Bool
  cameraPower : Bool
  laserPower : Bool
  deriving DecidableEq, Repr

/-- Modelled from the spec: `setFrameInterval` is declared in `pltlogger.h`
but defined in the main sketch, which is not under `src/`.  Per the spec,
run settings are "mutated only when SoftwareStatus != Running (settings
changes are rejected mid-run)" and "`frameIntervalMs` is never accepted
below `MINIMUM_FRAME_INTERVAL` except the sentinel 0, which resets to the
compiled default". -/
def setFrameInterval (interval : Nat) (s : DeviceState) : Bool × DeviceState :=
  if s.softwareStatus = SOFTWARE_RUNNING then (false, s)
  else if interval = 0 then (true, { s with frameInterval := DEFAULT_FRAME_INTERVAL })
  else if interval < MINIMUM_FRAME_INTERVAL then (false, s)
  else (true, { s with frameInterval := interval })

/-- Modelled from the spec: `setBurstSize` is declared in `pltlogger.h` but
defined outside `src/`.  Run settings are mutated only when the software
status is not Running. -/
def setBurstSize (n : Nat) (s : DeviceState) : Bool × DeviceState :=
  if s.softwareStatus = SOFTWARE_RUNNING then (false, s)
  else (true, { s with burstSize := n })

/-- Modelled from the spec: `setLaserContinuous` is declared in
`pltlogger.h` but defined outside `src/`.  Run settings are mutated only
when the software status is not Running. -/
def setLaserContinuous (b : Bool) (s : DeviceState) : Bool × DeviceState :=
  if s.softwareStatus = SOFTWARE_RUNNING then (false, s)
  else (true, { s with laserContinuous := b })

/-- The `camera` command's argument after the dispatcher's `strcmp` chain:
`forceoff` also covers the synonym `reset`. -/
inductive CameraArg where
  | on
  | off
  | forceoff
  | unknown
  deriving DecidableEq, Repr

/-- The `laser` command's argument after the dispatcher's `strcmp` chain. -/
inductive LaserArg where
  | on
  | off
  | unknown
  deriving DecidableEq, Repr

/-- The `lasermode` command's argument after the dispatcher's `strncmp`
against `norm` and `cont`. -/
inductive LasermodeArg where
  | normalMode
  | continuousMode
  | unknown
  deriving DecidableEq, Repr

/-- A parsed configuration or action command.  Numeric arguments carry the
`atoi` result; `none` is an empty argument. -/
inductive Command where
  | interval (arg : Option Int)
  | lasermode (arg : Option LasermodeArg)
  | burstsize (arg : Option Int)
  | camera (arg : Option CameraArg)
  | laser (arg : Option LaserArg)
  | snap (arg : Option Int)
  deriving DecidableEq, Repr

/-- What a dispatched command did: the new device state, the lines printed
to the serial port, and any shutter trips performed. -/
structure DispatchResult where
  state : DeviceState
  messages : List String
  shutterTrips : List Camera.ShutterTrip
  deriving DecidableEq, Repr

/-- Model of `Commands::snap` (Commands.cpp lines 1157-1185): refuse while booting,
on critical errors, or while a run is imaging; otherwise call `snapAndLog`
with the image count narrowed to the `uint8_t` parameter.  Only the
shutter-trip part of `snapAndLog` (modelled from the spec) is visible
here; its state bookkeeping lives outside `src/`. -/
def commandsSnap (nImages : Nat) (s : DeviceState) : DispatchResult :=
  if s.hardwareStatus = HARDWARE_BOOTING ∨ s.softwareStatus = SOFTWARE_BOOTING then
    { state := s, messages := ["Still booting. Not yet ready to run.\r\n"],
      shutterTrips := [] }
  else if s.hardwareStatus = HARDWARE_ERRORS ∨ s.softwareStatus = SOFTWARE_ERRORS then
    { state := s,
      messages := ["Cannot snap due to critical hardware errors.\r\n",
                   "Type \'hwinfo\' for hardware info.\r\n"],
      shutterTrips := [] }
  else if s.softwareStatus = SOFTWARE_RUNNING then
    { state := s,
      messages := ["Cannot snap a photo while imaging is in progress.\r\n"],
      shutterTrips := [] }
  else
    { state := s, messages := ["Camera powering up...\r\n"],
      shutterTrips := snapAndLogShutterTrips (nImages % 2 ^ 8) }

/-- The `lasermode` command's value line. -/
def lasermodeValueMessage (isLaserContinuous : Bool) : String :=
  if isLaserContinuous then "Continuous. Laser will be on for the whole run.\r\n"
  else "Normal. Laser will be turned on for each image.\r\n"

/-- The `burstsize` command's value line. -/
def burstsizeValueMessage (burstSize : Nat) : String :=
  "Shoot " ++ String.mk (natDecChars burstSize) ++ " images at a time.\r\n"

/-- Model of `Commands::dispatch` (Commands.cpp lines 201-591) restricted to the
configuration and action commands. -/
def dispatch (cmd : Command) (s : DeviceState) : DispatchResult :=
  match cmd with
  | Command.interval none =>
      { state := s, messages := [String.mk (natDecChars s.frameInterval) ++ " ms\r\n"],
        shutterTrips := [] }
  | Command.interval (some v) =>
      let interval := toUInt32bits v
      match setFrameInterval interval s with
      | (false, s1) =>
          { state := s1,
            messages := ["Bad interval. Use >= 200 ms or 0 to reset to default.\r\n"],
            shutterTrips := [] }
      | (true, s1) =>
          if interval = 0 then
            { state := s1, messages := ["Frame interval reset to default 1000 ms\r\n"],
              shutterTrips := [] }
          else
            { state := s1,
              messages := ["Frame interval set to " ++
                String.mk (natDecChars s1.frameInterval) ++ " ms\r\n"],
              shutterTrips := [] }
  | Command.lasermode none =>
      { state := s, messages := [lasermodeValueMessage s.laserContinuous],
        shutterTrips := [] }
  | Command.lasermode (some a) =>
      if s.softwareStatus = SOFTWARE_RUNNING then
        { state := s,
          messages := ["Cannot change laser mode while imaging is in progress.\r\n"],
          shutterTrips := [] }
      else
        match a with
        | LasermodeArg.normalMode =>
            let r := setLaserContinuous false s
            { state := r.2, messages := [lasermodeValueMessage r.2.laserContinuous],
              shutterTrips := [] }
        | LasermodeArg.continuousMode =>
            let r := setLaserContinuous true s
            { state := r.2, messages := [lasermodeValueMessage r.2.laserContinuous],
              shutterTrips := [] }
        | LasermodeArg.unknown =>
            { state := s,
              messages := ["Unknown mode. Use \'normal\' or \'continuous\'.\r\n"],
              shutterTrips := [] }
  | Command.burstsize none =>
      { state := s, messages := [burstsizeValueMessage s.burstSize],
        shutterTrips := [] }
  | Command.burstsize (some v) =>
      if s.softwareStatus = SOFTWARE_RUNNING then
        { state := s,
          messages := ["Cannot change burst size while imaging is progress.\r\n"],
          shutterTrips := [] }
      else
        let r := setBurstSize (toUInt8bits v) s
        { state := r.2, messages := [burstsizeValueMessage r.2.burstSize],
          shutterTrips := [] }
  | Command.camera none =>
      { state := s,
        messages := [if s.cameraPower then "Camera is on.\r\n" else "Camera is off.\r\n"],
        shutterTrips := [] }
  | Command.camera (some a) =>
      if s.softwareStatus = SOFTWARE_RUNNING then
        { state := s,
          messages := ["Cannot change camera on/off while imaging is in progress.\r\n"],
          shutterTrips := [] }
      else
        match a with
        | CameraArg.on =>
            if s.cameraPower = true then
              { state := s,
                messages := ["Camera and intensifier are already on.\r\n"],
                shutterTrips := [] }
            else
              { state := { s with
                  cameraPower := (Camera.setPower true false s.cameraPower).powerStatus,
                  cameraStatus := CAMERA_READY },
                messages := ["Camera and intensifier powering up...\r\n",
                             "Camera and intensifier are on.\r\n"],
                shutterTrips := [] }
        | CameraArg.off =>
            if s.cameraPower = false then
              { state := s, messages := ["Camera is already off.\r\n"],
                shutterTrips := [] }
            else
              { state := { s with
                  cameraPower := (Camera.setPower false false s.cameraPower).powerStatus,
                  cameraStatus := CAMERA_OFF },
                messages := ["Camera and intensifier powering down...\r\n",
                             "Camera and intensifier are off.\r\n"],
                shutterTrips := [] }
        | CameraArg.forceoff =>
            { state := { s with
                cameraPower := (Camera.setPower false true s.cameraPower).powerStatus,
                cameraStatus := CAMERA_OFF },
              messages := ["Camera and intensifier powering down (force)...\r\n",
                           "Camera and intensifier should be off.\r\n"],
              shutterTrips := [] }
        | CameraArg.unknown =>
            { state := s,
              messages := ["Unknown camera command.\r\n",
                           "Use \'on\', \'off\', or \'forceoff\'.\r\n"],
              shutterTrips := [] }
  | Command.laser none =>
      { state := s,
        messages := [if s.laserPower then "Laser is on.\r\n" else "Laser is off.\r\n"],
        shutterTrips := [] }
  | Command.laser (some a) =>
      if s.softwareStatus = SOFTWARE_RUNNING then
        { state := s,
          messages := ["Cannot change laser on/off while imaging is in progress.\r\n"],
          shutterTrips := [] }
      else
        match a with
        | LaserArg.on =>
            { state := { s with laserPower := Laser.setPower true s.laserPower },
              messages := ["Laser powering up...\r\n", "Laser is on.\r\n"],
              shutterTrips := [] }
        | LaserArg.off =>
            { state := { s with laserPower := Laser.setPower false s.laserPower },
              messages := ["Laser powering down...\r\n", "Laser is off.\r\n"],
              shutterTrips := [] }
        | LaserArg.unknown =>
            { state := s,
              messages := ["Unknown laser command.\r\n", "Use \'on\' or \'off\'.\r\n"],
              shutterTrips := [] }
  | Command.snap none => commandsSnap s.burstSize s
  | Command.snap (some v) =>
      let nImages := toUInt16bits v
      if nImages ≤ 1 then commandsSnap 1 s else commandsSnap nImages s

/-- A concrete all-zero inertial sensor event. -/
def zeroInertiaEvent : Sensors.InertiaEvent :=
  { accelX := 0, accelY := 0, accelZ := 0, magX := 0, magY := 0, magZ := 0,
    gyroX := 0, gyroY := 0, gyroZ := 0, rawTemperature := 0 }

/-- A concrete failing SD environment: `write` reports a short count on a
card that still reports its sectors. -/
def sdEnvFailFull : FileSystem.SdEnv :=
  { writeOk := false, syncOk := true, sectorCount := 1000, sdErrorCode := 0 }

/-- A concrete healthy SD environment. -/
def sdEnvOk : FileSystem.SdEnv :=
  { writeOk := true, syncOk := true, sectorCount := 1000, sdErrorCode := 0 }

/-- A concrete open-log file-system state with one header line written. -/
def fsStateOpen : FileSystem.FsState :=
  { initialized := true, logOpen := true,
    logLines := [FileSystem.dataLogHeaderLine],
    numberOfDataLogEntries := 0,
    localErrorCode := FileSystem.FS_ERROR_NONE,
    cardErrorCode := FileSystem.SD_CARD_ERROR_NONE,
    dataFiles := [0] }

/-- A concrete all-zero set of rendered float fields. -/
def zeroFloats : FileSystem.DataLogFloats :=
  { pressure := "0.000000".data, depth := "0.000000".data,
    waterTemperature := "0.000000".data, deviceTemperature := "0.000000".data,
    accelX := "0.000000".data, accelY := "0.000000".data,
    accelZ := "0.000000".data, magX := "0.000000".data,
    magY := "0.000000".data, magZ := "0.000000".data,
    gyroX := "0.000000".data, gyroY := "0.000000".data,
    gyroZ := "0.000000".data, controllerVolts := "0.000".data,
    controllerPercent := "0.0".data, mainVolts := "0.000".data,
    mainPercent := "0.0".data }

/-- Run a sequence of `writeDataLog` calls, collecting each call's return
value and write attempts. -/
def writeDataLogCalls :
    List (FileSystem.SdEnv × List Char × Nat × FileSystem.DataLogFloats) →
    FileSystem.FsState →
    List (Bool × List FileSystem.FsEvent) × FileSystem.FsState
  | [], s => ([], s)
  | c :: cs, s =>
    let r := FileSystem.writeDataLog c.1 c.2.1 c.2.2.1 c.2.2.2 s
    let rest := writeDataLogCalls cs r.2.1
    ((r.1, r.2.2) :: rest.1, rest.2)

/-- A concrete closed-log file-system state. -/
def fsStateClosed : FileSystem.FsState :=
  { fsStateOpen with logOpen := false, numberOfDataLogEntries := 0 }

/-- A concrete healthy environment for `newDataLog`. -/
def newLogEnvOk : FileSystem.NewLogEnv :=
  { openOk := true, openSdErrorCode := 0, header := sdEnvOk }

/-- A concrete closed state whose card holds log files 0 and 1. -/
def fsStateTwoFiles : FileSystem.FsState :=
  { initialized := true, logOpen := false, logLines := [],
    numberOfDataLogEntries := 0, localErrorCode := FileSystem.FS_ERROR_NONE,
    cardErrorCode := FileSystem.SD_CARD_ERROR_NONE, dataFiles := [0, 1] }

/-- A concrete state whose card holds log files at all 100 indices. -/
def fsStateFullFiles : FileSystem.FsState :=
  { initialized := true, logOpen := false, logLines := [],
    numberOfDataLogEntries := 0, localErrorCode := FileSystem.FS_ERROR_NONE,
    cardErrorCode := FileSystem.SD_CARD_ERROR_NONE,
    dataFiles := List.range FileSystem.MAX_LOG_FILES }

/-- The §6 CSV schema columns, written from the spec for comparison with
the header and row the source formats. -/
def specSchemaColumns : List (List Char) :=
  ["Timestamp".data, "Milliseconds".data, "Pressure".data, "Depth".data,
   "Water_Temperature".data, "Device_Temperature".data,
   "Acceleration_X".data, "Acceleration_Y".data, "Acceleration_Z".data,
   "Magnetic_X".data, "Magnetic_Y".data, "Magnetic_Z".data,
   "Gyroscope_X".data, "Gyroscope_Y".data, "Gyroscope_Z".data,
   "Controller_Volts".data, "Controller_Percent".data,
   "Main_Volts".data, "Main_Percent".data]

/-- The commands that mutate run settings or presumed actuator power when
given an argument: `interval N`, `lasermode MODE`, `burstsize N`,
`camera on|off|forceoff`, `laser on|off`. -/
def mutatesSettingsOrPower : Command → Bool
  | Command.interval (some _) => true
  | Command.lasermode (some _) => true
  | Command.burstsize (some _) => true
  | Command.camera (some _) => true
  | Command.laser (some _) => true
  | _ => false

/-- The single line each mutating command prints when it is rejected
mid-run (the `interval` rejection comes from `setFrameInterval` returning
false, the others from the dispatcher's Running guards). -/
def rejectionMessage : Command → String
  | Command.interval _ => "Bad interval. Use >= 200 ms or 0 to reset to default.\r\n"
  | Command.lasermode _ => "Cannot change laser mode while imaging is in progress.\r\n"
  | Command.burstsize _ => "Cannot change burst size while imaging is progress.\r\n"
  | Command.camera _ => "Cannot change camera on/off while imaging is in progress.\r\n"
  | Command.laser _ => "Cannot change laser on/off while imaging is in progress.\r\n"
  | Command.snap _ => ""

/-- A concrete device state in the middle of a run. -/
def runningState : DeviceState :=
  { hardwareStatus := HARDWARE_READY, softwareStatus := SOFTWARE_RUNNING,
    cameraStatus := CAMERA_READY, frameInterval := 1000, burstSize := 1,
    laserContinuous := false, cameraPower := true, laserPower := false }

/-- Run blocks of update ticks with one `isStartStopPressed` call after
each block, collecting the consume results. -/
def runWithConsumes (s : Switches.State) :
    List (List (Nat × Nat)) → List Bool × Switches.State
  | [] => ([], s)
  | blk :: blks =>
    let s1 := Switches.runUpdates s blk
    let r := Switches.isStartStopPressed s1
    let rest := runWithConsumes r.2 blks
    (r.1 :: rest.1, rest.2)

/-- A tick trace with two raw presses: press one is held and released
cleanly, press two begins on the very tick after press one's release was
locked in, then is held and released cleanly. -/
def pressBlocks : List (List (Nat × Nat)) :=
  [[(0, 1000), (0, 1060), (1, 1100), (1, 1160)],
   [(0, 1170)],
   [(0, 1220), (1, 1230), (1, 1280)]]

/-- A pre-existing hand-written settings file longer than what
`saveSettings` will write: 46 filler bytes followed by one full
`lasercontinuous 1` line. -/
def dirtySettingsFile : List Char :=
  List.replicate 46 'x' ++ "lasercontinuous 1\r\n".data

/-! ## Theorems -/

/-- C1: for every combination of the `onOff` and `force` arguments and
every presumed power state, `Camera::setPower` follows the power truth
table: with `force` false it pulses the camera toggle line once and sets
the intensifier to `onOff` exactly when the presumed state differs from
`onOff` (and otherwise touches nothing), with `force` true it always
pulses the camera toggle line once and sets the intensifier to `onOff`,
and afterwards the presumed power state equals `onOff`. -/
theorem camera_setPower_truth_table (onOff force powerStatus : Bool) :
    (Camera.setPower onOff force powerStatus).cameraTogglePulses
        = (if force = true ∨ powerStatus ≠ onOff then 1 else 0) ∧
    (Camera.setPower onOff force powerStatus).intensifierSetTo
        = (if force = true ∨ powerStatus ≠ onOff then some onOff else none) ∧
    (Camera.setPower onOff force powerStatus).powerStatus = onOff := by
  revert onOff force powerStatus
  decide

/-- C2: with the camera powered on, `Camera::snap` trips the shutter once
per requested image, each trip a fixed `CAMERA_RELAY_DELAY` (10 ms) pulse
followed by a fixed `CAMERA_SHUTTER_DELAY` (50 ms) recovery wait; and a
capture event (`snapAndLog`, modelled from the spec) with burst size `b`
performs exactly `b` such trips when `b ≥ 1` and exactly one trip when
`b ≤ 1`. -/
theorem capture_event_shutter_trips (b : Nat) :
    Camera.snap true b =
      List.replicate b
        { pulseMs := Camera.CAMERA_RELAY_DELAY,
          recoveryMs := Camera.CAMERA_SHUTTER_DELAY } ∧
    snapAndLogShutterTrips b =
      List.replicate (if b ≤ 1 then 1 else b)
        { pulseMs := Camera.CAMERA_RELAY_DELAY,
          recoveryMs := Camera.CAMERA_SHUTTER_DELAY } := by
  constructor
  · simp [Camera.snap]
  · by_cases h : b ≤ 1 <;> simp [snapAndLogShutterTrips, Camera.snap, h]

/-- C7 (counterexample): the claim as stated is false — when the inertial
module is absent, `Sensors::getInertia` zeroes the nine vector outputs but
leaves the device-temperature out-parameter at whatever value the caller
passed in; with caller value 1 the returned temperature is 1, not 0. -/
theorem sensors_absent_counterexample :
    (Sensors.getInertia false zeroInertiaEvent 1).temp = 1 ∧
    ¬ (∀ (ev : Sensors.InertiaEvent) (callerTemp : ℚ),
        Sensors.getInertia false ev callerTemp =
          { accel := (0, 0, 0), mag := (0, 0, 0), gyro := (0, 0, 0), temp := 0 }) := by
  constructor
  · rfl
  · intro h
    have h1 := congrArg Sensors.InertiaOut.temp (h zeroInertiaEvent 1)
    simp [Sensors.getInertia] at h1

/-- C7 (amended): whenever a sensor is not present its read operation
returns with every output value equal to zero — except the inertial
reader's device-temperature out-parameter, which is left unchanged at the
caller's value — and reports no error. -/
theorem sensors_absent_zero (ev : Sensors.InertiaEvent)
    (callerTemp sensorPressure sensorDepth sensorTemperature : ℚ) :
    Sensors.getInertia false ev callerTemp =
      { accel := (0, 0, 0), mag := (0, 0, 0), gyro := (0, 0, 0),
        temp := callerTemp } ∧
    Sensors.getWaterPressure false sensorPressure sensorDepth = (0, 0) ∧
    Sensors.getWaterTemperature false sensorTemperature = 0 := by
  refine ⟨?_, ?_, ?_⟩ <;>
    simp [Sensors.getInertia, Sensors.getWaterPressure, Sensors.getWaterTemperature]

/-- C4: when writing or syncing a log row fails, `writeDataLog` makes
exactly one write attempt for the row, returns false, classifies the error
as NoCard exactly when the card reports zero sectors and as CardFull
otherwise, and closes the file, so that an immediately following
`writeDataLog` call returns false without any write attempt — the failed
row is never silently retried. -/
theorem writeDataLog_failure_classified (env env2 : FileSystem.SdEnv)
    (dt dt2 : List Char) (ms ms2 : Nat) (f f2 : FileSystem.DataLogFloats)
    (s : FileSystem.FsState)
    (hopen : s.logOpen = true)
    (hfail : (env.writeOk && env.syncOk) = false) :
    (FileSystem.writeDataLog env dt ms f s).1 = false ∧
    (FileSystem.writeDataLog env dt ms f s).2.2 =
      [FileSystem.FsEvent.rowWriteAttempt (FileSystem.dataLogRow dt ms f)] ∧
    (FileSystem.writeDataLog env dt ms f s).2.1.localErrorCode =
      (if env.sectorCount = 0 then FileSystem.FS_ERROR_NOCARD
       else FileSystem.FS_ERROR_CARD_FULL) ∧
    (FileSystem.writeDataLog env dt ms f s).2.1.logOpen = false ∧
    (FileSystem.writeDataLog env2 dt2 ms2 f2
        (FileSystem.writeDataLog env dt ms f s).2.1).1 = false ∧
    (FileSystem.writeDataLog env2 dt2 ms2 f2
        (FileSystem.writeDataLog env dt ms f s).2.1).2.2 = [] := by
  simp [FileSystem.writeDataLog, FileSystem.writeFailState, hopen, hfail]

/-- Witness for C4 at a concrete failing write on an open log. -/
theorem writeDataLog_failure_classified_witness :
    fsStateOpen.logOpen = true ∧ (sdEnvFailFull.writeOk && sdEnvFailFull.syncOk) = false ∧
    ((FileSystem.writeDataLog sdEnvFailFull "t".data 5 zeroFloats fsStateOpen).1 = false ∧
     (FileSystem.writeDataLog sdEnvFailFull "t".data 5 zeroFloats fsStateOpen).2.2 =
       [FileSystem.FsEvent.rowWriteAttempt (FileSystem.dataLogRow "t".data 5 zeroFloats)] ∧
     (FileSystem.writeDataLog sdEnvFailFull "t".data 5 zeroFloats fsStateOpen).2.1.localErrorCode =
       (if sdEnvFailFull.sectorCount = 0 then FileSystem.FS_ERROR_NOCARD
        else FileSystem.FS_ERROR_CARD_FULL) ∧
     (FileSystem.writeDataLog sdEnvFailFull "t".data 5 zeroFloats fsStateOpen).2.1.logOpen = false ∧
     (FileSystem.writeDataLog sdEnvOk "u".data 6 zeroFloats
         (FileSystem.writeDataLog sdEnvFailFull "t".data 5 zeroFloats fsStateOpen).2.1).1 = false ∧
     (FileSystem.writeDataLog sdEnvOk "u".data 6 zeroFloats
         (FileSystem.writeDataLog sdEnvFailFull "t".data 5 zeroFloats fsStateOpen).2.1).2.2 = []) :=
  ⟨by decide, by decide,
   writeDataLog_failure_classified sdEnvFailFull sdEnvOk "t".data "u".data 5 6
     zeroFloats zeroFloats fsStateOpen (by decide) (by decide)⟩

/-- Every `writeDataLog` call on a closed log returns false with no write
attempt and leaves the state untouched, so a whole sequence of them does
too. -/
theorem writeDataLogCalls_closed
    (cs : List (FileSystem.SdEnv × List Char × Nat × FileSystem.DataLogFloats))
    (s : FileSystem.FsState) (h : s.logOpen = false) :
    writeDataLogCalls cs s = (cs.map (fun _ => (false, [])), s) := by
  induction cs with
  | nil => rfl
  | cons c cs ih =>
      simp [writeDataLogCalls, FileSystem.writeDataLog, h, ih]

/-- C10: whenever `writeDataLog` or `writeDataLogHeader` fails at the
write-and-sync, the data log file is closed and the entry counter is reset
to zero; from a closed log every subsequent `writeDataLog` call returns
false, appends nothing (no write attempt) and changes nothing, while a
succeeding `newDataLog` leaves the log open again. -/
theorem writeDataLog_failure_latches (env : FileSystem.SdEnv)
    (dt : List Char) (ms : Nat) (f : FileSystem.DataLogFloats)
    (nenv : FileSystem.NewLogEnv)
    (calls : List (FileSystem.SdEnv × List Char × Nat × FileSystem.DataLogFloats))
    (s sClosed sAny : FileSystem.FsState)
    (hopen : s.logOpen = true)
    (hfail : (env.writeOk && env.syncOk) = false)
    (hclosed : sClosed.logOpen = false)
    (hnew : (FileSystem.newDataLog nenv sAny).1 = true) :
    (FileSystem.writeDataLog env dt ms f s).2.1.logOpen = false ∧
    (FileSystem.writeDataLog env dt ms f s).2.1.numberOfDataLogEntries = 0 ∧
    (FileSystem.writeDataLogHeader env s).2.1.logOpen = false ∧
    (FileSystem.writeDataLogHeader env s).2.1.numberOfDataLogEntries = 0 ∧
    writeDataLogCalls calls sClosed = (calls.map (fun _ => (false, [])), sClosed) ∧
    (FileSystem.newDataLog nenv sAny).2.1.logOpen = true := by
  refine ⟨?_, ?_, ?_, ?_, writeDataLogCalls_closed calls sClosed hclosed, ?_⟩
  · simp [FileSystem.writeDataLog, FileSystem.writeFailState, hopen, hfail]
  · simp [FileSystem.writeDataLog, FileSystem.writeFailState, hopen, hfail]
  · simp [FileSystem.writeDataLogHeader, FileSystem.writeFailState, hopen, hfail]
  · simp [FileSystem.writeDataLogHeader, FileSystem.writeFailState, hopen, hfail]
  · revert hnew
    unfold FileSystem.newDataLog
    rcases h1 : sAny.initialized with _ | _
    · simp [h1]
    · simp only [h1]
      rcases h2 : (List.range FileSystem.MAX_LOG_FILES).find?
          (fun i => decide (i ∉ sAny.dataFiles)) with _ | i
      · simp
      · rcases h3 : nenv.openOk with _ | _
        · simp [h3]
        · simp only [h3]
          unfold FileSystem.writeDataLogHeader
          rcases h4 : (nenv.header.writeOk && nenv.header.syncOk) with _ | _ <;>
            simp [h4]

/-- Witness for C10 at a concrete failing write, closed state, one-call
sequence, and healthy `newDataLog`. -/
theorem writeDataLog_failure_latches_witness :
    fsStateOpen.logOpen = true ∧
    (sdEnvFailFull.writeOk && sdEnvFailFull.syncOk) = false ∧
    fsStateClosed.logOpen = false ∧
    (FileSystem.newDataLog newLogEnvOk fsStateClosed).1 = true ∧
    ((FileSystem.writeDataLog sdEnvFailFull "t".data 5 zeroFloats fsStateOpen).2.1.logOpen = false ∧
     (FileSystem.writeDataLog sdEnvFailFull "t".data 5 zeroFloats fsStateOpen).2.1.numberOfDataLogEntries = 0 ∧
     (FileSystem.writeDataLogHeader sdEnvFailFull fsStateOpen).2.1.logOpen = false ∧
     (FileSystem.writeDataLogHeader sdEnvFailFull fsStateOpen).2.1.numberOfDataLogEntries = 0 ∧
     writeDataLogCalls [(sdEnvOk, "a".data, 1, zeroFloats)] fsStateClosed =
       ([(sdEnvOk, "a".data, 1, zeroFloats)].map (fun _ => (false, [])), fsStateClosed) ∧
     (FileSystem.newDataLog newLogEnvOk fsStateClosed).2.1.logOpen = true) :=
  ⟨by decide, by decide, by decide, by decide,
   writeDataLog_failure_latches sdEnvFailFull "t".data 5 zeroFloats newLogEnvOk
     [(sdEnvOk, "a".data, 1, zeroFloats)] fsStateOpen fsStateClosed fsStateClosed
     (by decide) (by decide) (by decide) (by decide)⟩

/-- Searching with `List.find?` over `range' a n` (step 1) returns the least element of
the range satisfying the predicate. -/
theorem find?_range'_least (p : Nat → Bool) (n : Nat) :
    ∀ a k, (List.range' a n).find? p = some k →
      p k = true ∧ a ≤ k ∧ ∀ j, a ≤ j → j < k → p j = false := by
  induction n with
  | zero => intro a k h; simp at h
  | succ n ih =>
      intro a k h
      rw [List.range'_succ] at h
      by_cases hpa : p a = true
      · rw [List.find?_cons_of_pos _ hpa] at h
        obtain rfl : a = k := by injection h
        exact ⟨hpa, Nat.le_refl a, fun j h1 h2 => absurd (Nat.lt_of_le_of_lt h1 h2) (Nat.lt_irrefl a)⟩
      · rw [List.find?_cons_of_neg _ hpa] at h
        obtain ⟨hk, hak, hmin⟩ := ih (a + 1) k h
        refine ⟨hk, Nat.le_of_succ_le hak, fun j h1 h2 => ?_⟩
        rcases Nat.eq_or_lt_of_le h1 with rfl | h1'
        · exact Bool.eq_false_iff.mpr hpa
        · exact hmin j h1' h2

/-- C8: `newDataLog` creates the data log at the first index in `0..99`
for which no `DATA_nn.CSV` file exists on the card — the found index `k`
is free and every smaller index is taken, and with a healthy card the new
file and its header are created at `k` — while if files exist at all 100
indices it creates nothing and returns false with the
`TOO_MANY_LOG_FILES` error. -/
theorem newDataLog_first_free_index (env envF : FileSystem.NewLogEnv)
    (s sFull : FileSystem.FsState) (k : Nat)
    (hinit : s.initialized = true)
    (hfind : (List.range FileSystem.MAX_LOG_FILES).find?
        (fun i => decide (i ∉ s.dataFiles)) = some k)
    (hopen : env.openOk = true)
    (hhdr : (env.header.writeOk && env.header.syncOk) = true)
    (hinitF : sFull.initialized = true)
    (hfull : ∀ i, i < FileSystem.MAX_LOG_FILES → i ∈ sFull.dataFiles) :
    (k ∉ s.dataFiles ∧ ∀ j, j < k → j ∈ s.dataFiles) ∧
    (FileSystem.newDataLog env s).1 = true ∧
    (FileSystem.newDataLog env s).2.1.dataFiles = s.dataFiles ++ [k] ∧
    (FileSystem.newDataLog env s).2.1.logOpen = true ∧
    (FileSystem.newDataLog env s).2.1.logLines = [FileSystem.dataLogHeaderLine] ∧
    (FileSystem.newDataLog env s).2.2 =
      [FileSystem.FsEvent.fileCreate k, FileSystem.FsEvent.headerWriteAttempt] ∧
    (FileSystem.newDataLog envF sFull).1 = false ∧
    (FileSystem.newDataLog envF sFull).2.1.localErrorCode =
      FileSystem.FS_ERROR_TOO_MANY_LOG_FILES ∧
    (FileSystem.newDataLog envF sFull).2.1.dataFiles = sFull.dataFiles ∧
    (FileSystem.newDataLog envF sFull).2.2 = [] := by
  have hleast := find?_range'_least (fun i => decide (i ∉ s.dataFiles))
    FileSystem.MAX_LOG_FILES 0 k (by rw [← List.range_eq_range']; exact hfind)
  have hfree : k ∉ s.dataFiles := by
    have := hleast.1; simpa using this
  have hbelow : ∀ j, j < k → j ∈ s.dataFiles := by
    intro j hj
    have := hleast.2.2 j (Nat.zero_le j) hj
    simpa using this
  have hnone : (List.range FileSystem.MAX_LOG_FILES).find?
      (fun i => decide (i ∉ sFull.dataFiles)) = none := by
    rw [List.find?_eq_none]
    intro i hi
    simp only [List.mem_range] at hi
    simp [hfull i hi]
  have hfind' : (List.range FileSystem.MAX_LOG_FILES).find?
      (fun i => !decide (i ∈ s.dataFiles)) = some k := by
    simpa using hfind
  have hnone' : (List.range FileSystem.MAX_LOG_FILES).find?
      (fun i => !decide (i ∈ sFull.dataFiles)) = none := by
    simpa using hnone
  refine ⟨⟨hfree, hbelow⟩, ?_, ?_, ?_, ?_, ?_, ?_, ?_, ?_, ?_⟩ <;>
    simp [FileSystem.newDataLog, hinit, hfind', hopen,
      FileSystem.writeDataLogHeader, hhdr, hinitF, hnone']

/-- Witness for C8: with files 0 and 1 present index 2 is allocated; with
all 100 present nothing is created. -/
theorem newDataLog_first_free_index_witness :
    fsStateTwoFiles.initialized = true ∧
    (List.range FileSystem.MAX_LOG_FILES).find?
        (fun i => decide (i ∉ fsStateTwoFiles.dataFiles)) = some 2 ∧
    newLogEnvOk.openOk = true ∧
    (newLogEnvOk.header.writeOk && newLogEnvOk.header.syncOk) = true ∧
    fsStateFullFiles.initialized = true ∧
    (∀ i, i < FileSystem.MAX_LOG_FILES → i ∈ fsStateFullFiles.dataFiles) ∧
    ((2 ∉ fsStateTwoFiles.dataFiles ∧ ∀ j, j < 2 → j ∈ fsStateTwoFiles.dataFiles) ∧
     (FileSystem.newDataLog newLogEnvOk fsStateTwoFiles).1 = true ∧
     (FileSystem.newDataLog newLogEnvOk fsStateTwoFiles).2.1.dataFiles =
       fsStateTwoFiles.dataFiles ++ [2] ∧
     (FileSystem.newDataLog newLogEnvOk fsStateTwoFiles).2.1.logOpen = true ∧
     (FileSystem.newDataLog newLogEnvOk fsStateTwoFiles).2.1.logLines =
       [FileSystem.dataLogHeaderLine] ∧
     (FileSystem.newDataLog newLogEnvOk fsStateTwoFiles).2.2 =
       [FileSystem.FsEvent.fileCreate 2, FileSystem.FsEvent.headerWriteAttempt] ∧
     (FileSystem.newDataLog newLogEnvOk fsStateFullFiles).1 = false ∧
     (FileSystem.newDataLog newLogEnvOk fsStateFullFiles).2.1.localErrorCode =
       FileSystem.FS_ERROR_TOO_MANY_LOG_FILES ∧
     (FileSystem.newDataLog newLogEnvOk fsStateFullFiles).2.1.dataFiles =
       fsStateFullFiles.dataFiles ∧
     (FileSystem.newDataLog newLogEnvOk fsStateFullFiles).2.2 = []) :=
  ⟨by decide, by decide, by decide, by decide, by decide,
   fun i hi => List.mem_range.mpr hi,
   newDataLog_first_free_index newLogEnvOk newLogEnvOk fsStateTwoFiles
     fsStateFullFiles 2 (by decide) (by decide) (by decide) (by decide)
     (by decide) (fun i hi => List.mem_range.mpr hi)⟩

/-- A succeeding `newDataLog` leaves exactly the header line in the new
file, has made exactly one header write, and leaves the log open. -/
theorem newDataLog_success_shape (nenv : FileSystem.NewLogEnv)
    (sN : FileSystem.FsState)
    (h : (FileSystem.newDataLog nenv sN).1 = true) :
    (FileSystem.newDataLog nenv sN).2.1.logLines = [FileSystem.dataLogHeaderLine] ∧
    ((FileSystem.newDataLog nenv sN).2.2.count FileSystem.FsEvent.headerWriteAttempt) = 1 := by
  revert h
  unfold FileSystem.newDataLog
  rcases h1 : sN.initialized with _ | _
  · simp [h1]
  · simp only [h1]
    rcases h2 : (List.range FileSystem.MAX_LOG_FILES).find?
        (fun i => !decide (i ∈ sN.dataFiles)) with _ | i
    · simp [h2]
    · rcases h3 : nenv.openOk with _ | _
      · simp [h2, h3]
      · unfold FileSystem.writeDataLogHeader
        rcases h4 : (nenv.header.writeOk && nenv.header.syncOk) with _ | _ <;>
          simp [h2, h3, h4, List.count_cons]

/-- C3: a successful `writeDataLog` increments the entry counter by
exactly 1 and appends exactly one CSV row; the row is the comma-separated
list of exactly one field per §6 schema column, in schema order, with the
non-numeric timestamp double-quoted and the line terminated by CR LF; the
header row naming those columns is written exactly once per log file, by a
succeeding `newDataLog` when it creates the file, and never by
`writeDataLog`. -/
theorem writeDataLog_success_row_and_header (env : FileSystem.SdEnv)
    (nenv : FileSystem.NewLogEnv) (dt : List Char) (ms : Nat)
    (f : FileSystem.DataLogFloats) (s sN : FileSystem.FsState)
    (hopen : s.logOpen = true)
    (hok : (env.writeOk && env.syncOk) = true)
    (hnewOk : (FileSystem.newDataLog nenv sN).1 = true) :
    (FileSystem.writeDataLog env dt ms f s).1 = true ∧
    (FileSystem.writeDataLog env dt ms f s).2.1.numberOfDataLogEntries =
      (s.numberOfDataLogEntries + 1) % 2 ^ 32 ∧
    (FileSystem.writeDataLog env dt ms f s).2.1.logLines =
      s.logLines ++ [FileSystem.dataLogRow dt ms f] ∧
    FileSystem.dataLogRow dt ms f =
      List.intercalate [','] (FileSystem.dataLogRowFields dt ms f) ++ "\r\n".data ∧
    (FileSystem.dataLogRowFields dt ms f).length =
      FileSystem.dataLogColumns.length ∧
    (FileSystem.dataLogRowFields dt ms f).headI = FileSystem.quoted dt ∧
    FileSystem.dataLogColumns = specSchemaColumns ∧
    FileSystem.dataLogHeaderLine =
      List.intercalate [','] (specSchemaColumns.map FileSystem.quoted) ++ "\r\n".data ∧
    FileSystem.FsEvent.headerWriteAttempt ∉ (FileSystem.writeDataLog env dt ms f s).2.2 ∧
    (FileSystem.newDataLog nenv sN).2.1.logLines = [FileSystem.dataLogHeaderLine] ∧
    ((FileSystem.newDataLog nenv sN).2.2.count FileSystem.FsEvent.headerWriteAttempt) = 1 := by
  obtain ⟨hlines, hcount⟩ := newDataLog_success_shape nenv sN hnewOk
  refine ⟨?_, ?_, ?_, rfl, rfl, rfl, rfl, rfl, ?_, hlines, hcount⟩
  · simp [FileSystem.writeDataLog, hopen, hok]
  · simp [FileSystem.writeDataLog, hopen, hok]
  · simp [FileSystem.writeDataLog, hopen, hok]
  · simp [FileSystem.writeDataLog, hopen, hok]

/-- Witness for C3 at a concrete healthy write on an open log and a
concrete healthy `newDataLog`. -/
theorem writeDataLog_success_row_and_header_witness :
    fsStateOpen.logOpen = true ∧
    (sdEnvOk.writeOk && sdEnvOk.syncOk) = true ∧
    (FileSystem.newDataLog newLogEnvOk fsStateTwoFiles).1 = true ∧
    ((FileSystem.writeDataLog sdEnvOk "t".data 5 zeroFloats fsStateOpen).1 = true ∧
     (FileSystem.writeDataLog sdEnvOk "t".data 5 zeroFloats fsStateOpen).2.1.numberOfDataLogEntries =
       (fsStateOpen.numberOfDataLogEntries + 1) % 2 ^ 32 ∧
     (FileSystem.writeDataLog sdEnvOk "t".data 5 zeroFloats fsStateOpen).2.1.logLines =
       fsStateOpen.logLines ++ [FileSystem.dataLogRow "t".data 5 zeroFloats] ∧
     FileSystem.dataLogRow "t".data 5 zeroFloats =
       List.intercalate [','] (FileSystem.dataLogRowFields "t".data 5 zeroFloats) ++ "\r\n".data ∧
     (FileSystem.dataLogRowFields "t".data 5 zeroFloats).length =
       FileSystem.dataLogColumns.length ∧
     (FileSystem.dataLogRowFields "t".data 5 zeroFloats).headI =
       FileSystem.quoted "t".data ∧
     FileSystem.dataLogColumns = specSchemaColumns ∧
     FileSystem.dataLogHeaderLine =
       List.intercalate [','] (specSchemaColumns.map FileSystem.quoted) ++ "\r\n".data ∧
     FileSystem.FsEvent.headerWriteAttempt ∉
       (FileSystem.writeDataLog sdEnvOk "t".data 5 zeroFloats fsStateOpen).2.2 ∧
     (FileSystem.newDataLog newLogEnvOk fsStateTwoFiles).2.1.logLines =
       [FileSystem.dataLogHeaderLine] ∧
     ((FileSystem.newDataLog newLogEnvOk fsStateTwoFiles).2.2.count
        FileSystem.FsEvent.headerWriteAttempt) = 1) :=
  ⟨by decide, by decide, by decide,
   writeDataLog_success_row_and_header sdEnvOk newLogEnvOk "t".data 5 zeroFloats
     fsStateOpen fsStateTwoFiles (by decide) (by decide) (by decide)⟩

/-- C6: while SoftwareStatus is Running, every command that mutates
settings or actuator power (`interval N`, `burstsize N`,
`lasermode MODE`, `camera on|off|forceoff`, `laser on|off`) is rejected
with exactly one explicit message, no shutter activity, and no change at
all to the device state — settings and presumed actuator power included. -/
theorem running_rejects_mutating_commands (cmd : Command) (s : DeviceState)
    (hrun : s.softwareStatus = SOFTWARE_RUNNING)
    (hmut : mutatesSettingsOrPower cmd = true) :
    dispatch cmd s =
      { state := s, messages := [rejectionMessage cmd], shutterTrips := [] } := by
  cases cmd with
  | interval arg =>
      cases arg with
      | none => simp [mutatesSettingsOrPower] at hmut
      | some v =>
          simp [dispatch, setFrameInterval, hrun, rejectionMessage]
  | lasermode arg =>
      cases arg with
      | none => simp [mutatesSettingsOrPower] at hmut
      | some a => simp [dispatch, hrun, rejectionMessage]
  | burstsize arg =>
      cases arg with
      | none => simp [mutatesSettingsOrPower] at hmut
      | some v => simp [dispatch, hrun, rejectionMessage]
  | camera arg =>
      cases arg with
      | none => simp [mutatesSettingsOrPower] at hmut
      | some a => simp [dispatch, hrun, rejectionMessage]
  | laser arg =>
      cases arg with
      | none => simp [mutatesSettingsOrPower] at hmut
      | some a => simp [dispatch, hrun, rejectionMessage]
  | snap arg => simp [mutatesSettingsOrPower] at hmut

/-- Witness for C6: the `camera on` command while Running is rejected with
its message and no state change. -/
theorem running_rejects_mutating_commands_witness :
    runningState.softwareStatus = SOFTWARE_RUNNING ∧
    mutatesSettingsOrPower (Command.camera (some CameraArg.on)) = true ∧
    dispatch (Command.camera (some CameraArg.on)) runningState =
      { state := runningState,
        messages := [rejectionMessage (Command.camera (some CameraArg.on))],
        shutterTrips := [] } :=
  ⟨by decide, by decide,
   running_rejects_mutating_commands (Command.camera (some CameraArg.on))
     runningState (by decide) (by decide)⟩

/-- C9 (counterexample): the claim as stated is false — it is not the case
that for every sequence of update ticks each physical press yields at most
one true from the press-consuming query.  On `pressBlocks`, a trace with
exactly two raw press transitions, three interleaved consume calls all
return true: the tick that starts press two arrives within the debounce
window right after press one's release was locked in, so it increments the
press counter again without any new debounced press. -/
theorem consumePress_counterexample :
    Switches.rawPresses Switches.SWITCH_UP pressBlocks.flatten = 2 ∧
    (runWithConsumes (Switches.init Switches.SWITCH_UP) pressBlocks).1 =
      [true, true, true] ∧
    ¬ (∀ blocks : List (List (Nat × Nat)),
        ((runWithConsumes (Switches.init Switches.SWITCH_UP) blocks).1.count true) ≤
          Switches.rawPresses Switches.SWITCH_UP blocks.flatten) :=
  ⟨by decide, by decide, fun h => absurd (h pressBlocks) (by decide)⟩

/-- Folding one more digit onto a decimal digit list. -/
theorem decValue_append_digit (ds : List Nat) (d : Nat) :
    decValue (ds ++ [d]) = 10 * decValue ds + d := by
  simp [decValue, List.foldl_append]

/-- With enough fuel, the digit list of `n` evaluates back to `n`, is
nonempty, and holds only digits below ten. -/
theorem natDecDigitsAux_spec (fuel : Nat) :
    ∀ n, n ≤ fuel →
      decValue (natDecDigitsAux fuel n) = n ∧
      natDecDigitsAux fuel n ≠ [] ∧
      ∀ d ∈ natDecDigitsAux fuel n, d < 10 := by
  induction fuel with
  | zero =>
      intro n hn
      obtain rfl := Nat.le_zero.mp hn
      exact ⟨rfl, by simp [natDecDigitsAux], by simp [natDecDigitsAux]⟩
  | succ fuel ih =>
      intro n hn
      by_cases h10 : n < 10
      · refine ⟨?_, ?_, ?_⟩
        · simp only [natDecDigitsAux, if_pos h10, decValue, List.foldl_cons,
            List.foldl_nil]
          omega
        · simp [natDecDigitsAux, h10]
        · intro d hd
          simp [natDecDigitsAux, h10] at hd
          omega
      · have hdiv : n / 10 ≤ fuel := by omega
        obtain ⟨ihv, ihne, ihlt⟩ := ih (n / 10) hdiv
        refine ⟨?_, ?_, ?_⟩
        · simp only [natDecDigitsAux, if_neg h10, decValue_append_digit, ihv]
          omega
        · simp [natDecDigitsAux, h10]
        · intro d hd
          simp only [natDecDigitsAux, if_neg h10, List.mem_append,
            List.mem_singleton] at hd
          rcases hd with hd | hd
          · exact ihlt d hd
          · omega

/-- The decimal digit list of `n` evaluates back to `n`. -/
theorem decValue_natDecDigits (n : Nat) : decValue (natDecDigits n) = n :=
  (natDecDigitsAux_spec n n (Nat.le_refl n)).1

/-- The decimal digit list is never empty. -/
theorem natDecDigits_ne_nil (n : Nat) : natDecDigits n ≠ [] :=
  (natDecDigitsAux_spec n n (Nat.le_refl n)).2.1

/-- Every entry of the decimal digit list is a digit. -/
theorem natDecDigits_lt10 (n : Nat) : ∀ d ∈ natDecDigits n, d < 10 :=
  (natDecDigitsAux_spec n n (Nat.le_refl n)).2.2

/-- A number below `10 ^ (k + 1)` has at most `k + 1` decimal digits. -/
theorem natDecDigitsAux_length (fuel : Nat) :
    ∀ n k, n ≤ fuel → n < 10 ^ (k + 1) →
      (natDecDigitsAux fuel n).length ≤ k + 1 := by
  induction fuel with
  | zero =>
      intro n k hn _
      obtain rfl := Nat.le_zero.mp hn
      simp [natDecDigitsAux]
  | succ fuel ih =>
      intro n k hn hk
      by_cases h10 : n < 10
      · simp [natDecDigitsAux, h10]
      · rcases k with _ | k
        · exfalso
          have : (10 : Nat) ^ 1 = 10 := by norm_num
          omega
        · have hdiv10 : n / 10 < 10 ^ (k + 1) := by
            have hmul : n < 10 ^ (k + 1) * 10 := by
              have : (10 : Nat) ^ (k + 1 + 1) = 10 ^ (k + 1) * 10 := pow_succ 10 (k + 1)
              omega
            omega
          have hlen := ih (n / 10) k (by omega) hdiv10
          simp only [natDecDigitsAux, if_neg h10, List.length_append,
            List.length_singleton]
          omega

/-- A number below `10 ^ (k + 1)` renders to at most `k + 1` characters. -/
theorem natDecChars_length (n k : Nat) (h : n < 10 ^ (k + 1)) :
    (natDecChars n).length ≤ k + 1 := by
  simpa [natDecChars] using natDecDigitsAux_length n n k (Nat.le_refl n) h

/-- Rendering and reading back a single digit. -/
theorem digitChar_spec (d : Nat) (h : d < 10) :
    digitVal (digitChar d) = d ∧ isDigitChar (digitChar d) = true ∧
    isSpaceChar (digitChar d) = false := by
  interval_cases d <;> exact ⟨by decide, by decide, by decide⟩

/-- Every rendered decimal character is a digit and not white space. -/
theorem mem_natDecChars (n : Nat) :
    ∀ c ∈ natDecChars n, isDigitChar c = true ∧ isSpaceChar c = false := by
  intro c hc
  simp only [natDecChars, List.mem_map] at hc
  obtain ⟨d, hd, rfl⟩ := hc
  have hlt := natDecDigits_lt10 n d hd
  exact ⟨(digitChar_spec d hlt).2.1, (digitChar_spec d hlt).2.2⟩

/-- Reading the digit values back off the rendered characters. -/
theorem map_digitVal_natDecChars (n : Nat) :
    (natDecChars n).map digitVal = natDecDigits n := by
  rw [natDecChars, List.map_map]
  have h : ∀ d ∈ natDecDigits n, (digitVal ∘ digitChar) d = id d := fun d hd =>
    (digitChar_spec d (natDecDigits_lt10 n d hd)).1
  rw [List.map_congr_left h, List.map_id]

/-- Taking with `takeWhile` keeps a list every element of which satisfies the
predicate. -/
theorem takeWhile_of_all {α : Type} {p : α → Bool} :
    ∀ xs : List α, (∀ c ∈ xs, p c = true) → xs.takeWhile p = xs := by
  intro xs
  induction xs with
  | nil => intro _; rfl
  | cons x xs ih =>
      intro h
      rw [List.takeWhile_cons, if_pos (h x (List.mem_cons_self x xs))]
      rw [ih fun c hc => h c (List.mem_cons_of_mem x hc)]

/-- Taking with `takeWhile` stops exactly at the first failing element. -/
theorem takeWhile_append_stop {α : Type} {p : α → Bool} (y : α) (ys : List α) :
    ∀ xs : List α, (∀ c ∈ xs, p c = true) → p y = false →
      (xs ++ y :: ys).takeWhile p = xs := by
  intro xs
  induction xs with
  | nil => intro _ hy; simp [List.takeWhile_cons, hy]
  | cons x xs ih =>
      intro h hy
      rw [List.cons_append, List.takeWhile_cons,
        if_pos (h x (List.mem_cons_self x xs))]
      rw [ih (fun c hc => h c (List.mem_cons_of_mem x hc)) hy]

/-- Dropping with `dropWhile` drops exactly up to the first failing element. -/
theorem dropWhile_append_stop {α : Type} {p : α → Bool} (y : α) (ys : List α) :
    ∀ xs : List α, (∀ c ∈ xs, p c = true) → p y = false →
      (xs ++ y :: ys).dropWhile p = y :: ys := by
  intro xs
  induction xs with
  | nil => intro _ hy; simp [List.dropWhile_cons, hy]
  | cons x xs ih =>
      intro h hy
      rw [List.cons_append, List.dropWhile_cons,
        if_pos (h x (List.mem_cons_self x xs))]
      exact ih (fun c hc => h c (List.mem_cons_of_mem x hc)) hy

/-- Dropping with `dropWhile` keeps a list no element of which satisfies the
predicate (only the head matters). -/
theorem dropWhile_of_all_false {α : Type} {p : α → Bool} :
    ∀ xs : List α, (∀ c ∈ xs, p c = false) → xs.dropWhile p = xs := by
  intro xs
  induction xs with
  | nil => intro _; rfl
  | cons x xs _ =>
      intro h
      rw [List.dropWhile_cons, if_neg]
      simp [h x (List.mem_cons_self x xs)]

/-- Reading with `cAtoi` gives back the rendered decimal of a natural number. -/
theorem cAtoi_natDecChars (n : Nat) : cAtoi (natDecChars n) = n := by
  have hne : natDecChars n ≠ [] := by
    simp [natDecChars]
    exact natDecDigits_ne_nil n
  obtain ⟨c, cs, hc⟩ := List.exists_cons_of_ne_nil hne
  have hcmem : c ∈ natDecChars n := by rw [hc]; exact List.mem_cons_self c cs
  have hcdigit := mem_natDecChars n c hcmem
  have hcm : ¬ (c = '-') := by
    intro h; rw [h] at hcdigit; exact absurd hcdigit.1 (by decide)
  have hcp : ¬ (c = '+') := by
    intro h; rw [h] at hcdigit; exact absurd hcdigit.1 (by decide)
  have hdrop : (natDecChars n).dropWhile isSpaceChar = natDecChars n :=
    dropWhile_of_all_false _ fun d hd => (mem_natDecChars n d hd).2
  unfold cAtoi
  rw [hdrop, hc]
  simp only [if_neg hcm, if_neg hcp]
  rw [← hc, takeWhile_of_all _ fun d hd => (mem_natDecChars n d hd).1,
    map_digitVal_natDecChars, decValue_natDecDigits]

/-- Reading with `cAtoi` gives back the `%ld` rendering of an integer. -/
theorem cAtoi_intDecChars (v : Int) : cAtoi (intDecChars v) = v := by
  by_cases hv : v < 0
  · have hmem := mem_natDecChars v.natAbs
    have hdrop : ('-' :: natDecChars v.natAbs).dropWhile isSpaceChar =
        '-' :: natDecChars v.natAbs := by
      rw [List.dropWhile_cons, if_neg]
      decide
    rw [intDecChars, if_pos hv]
    unfold cAtoi
    rw [hdrop]
    simp [takeWhile_of_all _ fun d hd => (hmem d hd).1,
      map_digitVal_natDecChars, decValue_natDecDigits]
    simp [abs_of_neg hv]
  · rw [intDecChars, if_neg hv]
    rw [cAtoi_natDecChars]
    omega

/-- C conversion round trip: a `uint32_t` printed through `%ld` and read
back through `atoi` into a `uint32_t` is unchanged. -/
theorem toUInt32bits_toSigned32 (n : Nat) (h : n < 2 ^ 32) :
    toUInt32bits (toSigned32 n) = n := by
  unfold toUInt32bits toSigned32
  by_cases h31 : n % 2 ^ 32 < 2 ^ 31
  · rw [if_pos h31]
    omega
  · rw [if_neg h31]
    omega

/-- A character that is not white space is neither CR nor LF. -/
theorem not_space_ne_crlf (c : Char) (h : isSpaceChar c = false) :
    c ≠ '\r' ∧ c ≠ '\n' := by
  constructor <;> intro hc <;> rw [hc] at h <;> exact absurd h (by decide)

/-- Every character of an `%ld` rendering is a digit or the leading minus
sign; in particular none is white space. -/
theorem mem_intDecChars (v : Int) :
    ∀ c ∈ intDecChars v, isSpaceChar c = false := by
  intro c hc
  unfold intDecChars at hc
  by_cases hv : v < 0
  · rw [if_pos hv] at hc
    rcases List.mem_cons.mp hc with rfl | hc
    · decide
    · exact (mem_natDecChars _ c hc).2
  · rw [if_neg hv] at hc
    exact (mem_natDecChars _ c hc).2

/-- An `%ld` rendering is never empty. -/
theorem intDecChars_ne_nil (v : Int) : intDecChars v ≠ [] := by
  unfold intDecChars
  by_cases hv : v < 0
  · rw [if_pos hv]; exact List.cons_ne_nil _ _
  · rw [if_neg hv]
    simp [natDecChars]
    exact natDecDigits_ne_nil _

/-- An integer of magnitude below `10 ^ 10` renders through `%ld` to at
most 11 characters. -/
theorem intDecChars_length (v : Int) (h : v.natAbs < 10 ^ 10) :
    (intDecChars v).length ≤ 11 := by
  unfold intDecChars
  by_cases hv : v < 0
  · rw [if_pos hv]
    have := natDecChars_length v.natAbs 9 (by omega)
    simp only [List.length_cons]
    omega
  · rw [if_neg hv]
    have hlt : v.toNat < 10 ^ 10 := by omega
    have := natDecChars_length v.toNat 9 (by omega)
    omega

/-- The C `int` to `uint8_t` conversion is the identity on byte values. -/
theorem toUInt8bits_natCast (b : Nat) (h : b < 2 ^ 8) :
    toUInt8bits (b : Int) = b := by
  unfold toUInt8bits
  omega

/-- The loop of `readLine` takes one clean line (no CR or LF, short enough for
the shared buffer) up to its CR LF terminator and leaves the rest
unread. -/
theorem readLineAux_clean (rest : List Char) :
    ∀ (A acc : List Char),
      (∀ c ∈ A, c ≠ '\r' ∧ c ≠ '\n') →
      acc.length + A.length ≤ 1023 →
      FileSystem.readLineAux acc (A ++ '\r' :: '\n' :: rest) =
        (acc.reverse ++ A, rest) := by
  intro A
  induction A with
  | nil =>
      intro acc _ hlen
      have hcap : ¬ (FileSystem.BUFFER_SIZE - 1 ≤ acc.length) := by
        simp only [FileSystem.BUFFER_SIZE]
        omega
      simp [FileSystem.readLineAux, hcap]
  | cons a A ih =>
      intro acc ha hlen
      have hcap : ¬ (FileSystem.BUFFER_SIZE - 1 ≤ acc.length) := by
        simp only [FileSystem.BUFFER_SIZE]
        omega
      have ha1 : ¬ (a = '\r') := (ha a (List.mem_cons_self a A)).1
      have ha2 : ¬ (a = '\n') := (ha a (List.mem_cons_self a A)).2
      have ihapp := ih (a :: acc)
        (fun c hc => ha c (List.mem_cons_of_mem a hc))
        (by simp only [List.length_cons] at *; omega)
      simp [FileSystem.readLineAux, hcap, ha1, ha2, ihapp]

/-- Reading one clean CR-LF-terminated line with `readLine`. -/
theorem readLine_clean (A R : List Char)
    (hA : ∀ c ∈ A, c ≠ '\r' ∧ c ≠ '\n') (hlen : A.length ≤ 1023) :
    FileSystem.readLine (A ++ '\r' :: '\n' :: R) = (A, R) := by
  unfold FileSystem.readLine
  simpa using readLineAux_clean R A [] hA (by simpa)

/-- Parsing with `parseLine` a space-free word followed by one space and a
space-free value. -/
theorem parseLine_word_value (W V : List Char)
    (hW : ∀ c ∈ W, isSpaceChar c = false) (hWne : W ≠ [])
    (hV : ∀ c ∈ V, isSpaceChar c = false) :
    FileSystem.parseLine (W ++ ' ' :: V) = (W, V) := by
  obtain ⟨w, W', hw⟩ := List.exists_cons_of_ne_nil hWne
  have hdrop1 : (W ++ ' ' :: V).dropWhile isSpaceChar = W ++ ' ' :: V := by
    rw [hw, List.cons_append, List.dropWhile_cons, if_neg]
    simp [hW w (by rw [hw]; exact List.mem_cons_self w W')]
  have htake : (W ++ ' ' :: V).takeWhile (fun c => !isSpaceChar c) = W :=
    takeWhile_append_stop _ _ _ (fun c hc => by simp [hW c hc]) (by decide)
  have hdrop2 : (W ++ ' ' :: V).dropWhile (fun c => !isSpaceChar c) = ' ' :: V :=
    dropWhile_append_stop _ _ _ (fun c hc => by simp [hW c hc]) (by decide)
  unfold FileSystem.parseLine
  simp only [hdrop1, htake, hdrop2]
  rw [dropWhile_of_all_false V hV]

/-- One iteration of the `loadSettings` line loop. -/
theorem loadSettingsLoop_step (fuel : Nat) (st : FileSystem.RunSettings)
    (cs line rest : List Char)
    (h : FileSystem.readLine cs = (line, rest)) (hne : line ≠ []) :
    FileSystem.loadSettingsLoop (fuel + 1) st cs =
      FileSystem.loadSettingsLoop fuel (FileSystem.applySettingsLine st line) rest := by
  simp [FileSystem.loadSettingsLoop, h, hne]

/-- The `loadSettings` line loop stops at an empty line. -/
theorem loadSettingsLoop_stop (fuel : Nat) (st : FileSystem.RunSettings)
    (cs : List Char) (h : (FileSystem.readLine cs).1 = []) :
    FileSystem.loadSettingsLoop (fuel + 1) st cs = st := by
  simp [FileSystem.loadSettingsLoop, h]

/-- The `interval` settings line assigns the parsed interval. -/
theorem applySettingsLine_interval (st : FileSystem.RunSettings)
    (D : List Char) (hD : ∀ c ∈ D, isSpaceChar c = false) (hDne : D ≠ []) :
    FileSystem.applySettingsLine st ("interval ".data ++ D) =
      { st with interval := toUInt32bits (cAtoi D) } := by
  have hsplit : "interval ".data ++ D = "interval".data ++ ' ' :: D := by
    have h9 : "interval ".data = "interval".data ++ [' '] := by decide
    rw [h9, List.append_assoc]
    rfl
  rw [hsplit]
  unfold FileSystem.applySettingsLine
  rw [parseLine_word_value "interval".data D (by decide) (by decide) hD]
  simp [hDne]

/-- The `burstsize` settings line assigns the parsed burst size. -/
theorem applySettingsLine_burstsize (st : FileSystem.RunSettings)
    (D : List Char) (hD : ∀ c ∈ D, isSpaceChar c = false) (hDne : D ≠ []) :
    FileSystem.applySettingsLine st ("burstsize ".data ++ D) =
      { st with burstSize := toUInt8bits (cAtoi D) } := by
  have hsplit : "burstsize ".data ++ D = "burstsize".data ++ ' ' :: D := by
    have h10 : "burstsize ".data = "burstsize".data ++ [' '] := by decide
    rw [h10, List.append_assoc]
    rfl
  rw [hsplit]
  unfold FileSystem.applySettingsLine
  rw [parseLine_word_value "burstsize".data D (by decide) (by decide) hD]
  simp [hDne]

/-- The `lasercontinuous` settings line assigns the parsed flag. -/
theorem applySettingsLine_lasercontinuous (st : FileSystem.RunSettings)
    (D : List Char) (hD : ∀ c ∈ D, isSpaceChar c = false) (hDne : D ≠ []) :
    FileSystem.applySettingsLine st ("lasercontinuous ".data ++ D) =
      { st with isLaserContinuous := decide (cAtoi D = 1) } := by
  have hsplit : "lasercontinuous ".data ++ D = "lasercontinuous".data ++ ' ' :: D := by
    have h16 : "lasercontinuous ".data = "lasercontinuous".data ++ [' '] := by decide
    rw [h16, List.append_assoc]
    rfl
  rw [hsplit]
  unfold FileSystem.applySettingsLine
  rw [parseLine_word_value "lasercontinuous".data D (by decide) (by decide) hD]
  simp [hDne]

/-- Running the settings-line loop over a well-formed three-line settings
file assigns the three parsed values, whatever the loop's starting
values. -/
theorem loadSettingsLoop_content (st0 : FileSystem.RunSettings)
    (D1 D2 D3 : List Char)
    (h1 : ∀ c ∈ D1, isSpaceChar c = false) (h1ne : D1 ≠ [])
    (h1len : D1.length ≤ 1000)
    (h2 : ∀ c ∈ D2, isSpaceChar c = false) (h2ne : D2 ≠ [])
    (h2len : D2.length ≤ 1000)
    (h3 : ∀ c ∈ D3, isSpaceChar c = false) (h3ne : D3 ≠ [])
    (h3len : D3.length ≤ 1000)
    (fuel : Nat) :
    FileSystem.loadSettingsLoop (fuel + 4) st0
        ("interval ".data ++ D1 ++ "\r\n".data ++
         "burstsize ".data ++ D2 ++ "\r\n".data ++
         "lasercontinuous ".data ++ D3 ++ "\r\n".data) =
      { interval := toUInt32bits (cAtoi D1),
        isLaserContinuous := decide (cAtoi D3 = 1),
        burstSize := toUInt8bits (cAtoi D2) } := by
  have clean1 : ∀ c ∈ "interval ".data ++ D1, c ≠ '\r' ∧ c ≠ '\n' := by
    intro c hc
    rcases List.mem_append.mp hc with hc | hc
    · exact (by decide : ∀ x ∈ "interval ".data, x ≠ '\r' ∧ x ≠ '\n') c hc
    · exact not_space_ne_crlf c (h1 c hc)
  have clean2 : ∀ c ∈ "burstsize ".data ++ D2, c ≠ '\r' ∧ c ≠ '\n' := by
    intro c hc
    rcases List.mem_append.mp hc with hc | hc
    · exact (by decide : ∀ x ∈ "burstsize ".data, x ≠ '\r' ∧ x ≠ '\n') c hc
    · exact not_space_ne_crlf c (h2 c hc)
  have clean3 : ∀ c ∈ "lasercontinuous ".data ++ D3, c ≠ '\r' ∧ c ≠ '\n' := by
    intro c hc
    rcases List.mem_append.mp hc with hc | hc
    · exact (by decide : ∀ x ∈ "lasercontinuous ".data, x ≠ '\r' ∧ x ≠ '\n') c hc
    · exact not_space_ne_crlf c (h3 c hc)
  have len1 : ("interval ".data ++ D1).length ≤ 1023 := by
    simp [List.length_append]
    omega
  have len2 : ("burstsize ".data ++ D2).length ≤ 1023 := by
    simp [List.length_append]
    omega
  have len3 : ("lasercontinuous ".data ++ D3).length ≤ 1023 := by
    simp [List.length_append]
    omega
  have ne1 : "interval ".data ++ D1 ≠ [] := by simp
  have ne2 : "burstsize ".data ++ D2 ≠ [] := by simp
  have ne3 : "lasercontinuous ".data ++ D3 ≠ [] := by simp
  have e1 : "interval ".data ++ D1 ++ "\r\n".data ++
      "burstsize ".data ++ D2 ++ "\r\n".data ++
      "lasercontinuous ".data ++ D3 ++ "\r\n".data =
      ("interval ".data ++ D1) ++ '\r' :: '\n' ::
        (("burstsize ".data ++ D2) ++ '\r' :: '\n' ::
          (("lasercontinuous ".data ++ D3) ++ '\r' :: '\n' :: ([] : List Char))) := by
    simp [List.append_assoc]
  rw [e1]
  rw [loadSettingsLoop_step (fuel + 3) st0 _ _ _
    (readLine_clean _ _ clean1 len1) ne1]
  rw [applySettingsLine_interval st0 D1 h1 h1ne]
  rw [loadSettingsLoop_step (fuel + 2) _ _ _ _
    (readLine_clean _ _ clean2 len2) ne2]
  rw [applySettingsLine_burstsize _ D2 h2 h2ne]
  rw [loadSettingsLoop_step (fuel + 1) _ _ _ _
    (readLine_clean _ _ clean3 len3) ne3]
  rw [applySettingsLine_lasercontinuous _ D3 h3 h3ne]
  rw [loadSettingsLoop_stop fuel _ [] rfl]

/-- C5 (amended): for every `uint32_t` interval, `uint8_t` burst size and
laser flag, a successful `saveSettings` followed by `loadSettings`
restores exactly the same three values, provided the settings file's
previous content was no longer than the newly written bytes (for instance
the file did not exist).  `saveSettings` opens with `O_WRONLY|O_CREAT` and
no `O_TRUNC`, so the tail of a longer pre-existing file survives past the
new bytes and can be parsed as further settings lines overriding the saved
values — see the counterexample. -/
theorem settings_roundtrip (interval : Nat) (isLaserContinuous : Bool)
    (burstSize : Nat) (prior : List Char) (st0 : FileSystem.RunSettings)
    (hi : interval < 2 ^ 32) (hb : burstSize < 2 ^ 8)
    (hprior : prior.length ≤
      (FileSystem.saveSettingsContent interval isLaserContinuous burstSize).length) :
    FileSystem.loadSettings st0
        (FileSystem.saveSettingsFile prior interval isLaserContinuous burstSize) =
      { interval := interval, isLaserContinuous := isLaserContinuous,
        burstSize := burstSize } := by
  have hfile : FileSystem.saveSettingsFile prior interval isLaserContinuous burstSize =
      FileSystem.saveSettingsContent interval isLaserContinuous burstSize := by
    simp [FileSystem.saveSettingsFile, List.drop_eq_nil_of_le hprior]
  rw [hfile]
  have hlen3 : 3 ≤ (FileSystem.saveSettingsContent interval
      isLaserContinuous burstSize).length := by
    simp [FileSystem.saveSettingsContent, List.length_append]
  obtain ⟨f, hf⟩ : ∃ f, (FileSystem.saveSettingsContent interval
      isLaserContinuous burstSize).length + 1 = f + 4 :=
    ⟨(FileSystem.saveSettingsContent interval isLaserContinuous burstSize).length - 3,
     by omega⟩
  unfold FileSystem.loadSettings
  rw [hf]
  have habs : (toSigned32 interval).natAbs < 10 ^ 10 := by
    unfold toSigned32
    split <;> omega
  have h3all : ∀ c ∈ (if isLaserContinuous then "1".data else "0".data),
      isSpaceChar c = false := by
    cases isLaserContinuous <;> decide
  have h3ne : (if isLaserContinuous then "1".data else "0".data) ≠ [] := by
    cases isLaserContinuous <;> decide
  have h3len : (if isLaserContinuous then "1".data else "0".data).length ≤ 1000 := by
    cases isLaserContinuous <;> decide
  rw [show FileSystem.saveSettingsContent interval isLaserContinuous burstSize =
      "interval ".data ++ intDecChars (toSigned32 interval) ++ "\r\n".data ++
      "burstsize ".data ++ natDecChars burstSize ++ "\r\n".data ++
      "lasercontinuous ".data ++
      (if isLaserContinuous then "1".data else "0".data) ++ "\r\n".data from rfl]
  rw [loadSettingsLoop_content st0 _ _ _
    (mem_intDecChars _) (intDecChars_ne_nil _)
    (by have := intDecChars_length _ habs; omega)
    (fun c hc => (mem_natDecChars _ c hc).2)
    (by simp [natDecChars]; exact natDecDigits_ne_nil _)
    (by have := natDecChars_length burstSize 9 (by omega); omega)
    h3all h3ne h3len f]
  rw [cAtoi_intDecChars, toUInt32bits_toSigned32 interval hi,
    cAtoi_natDecChars, toUInt8bits_natCast burstSize hb]
  cases isLaserContinuous <;> rfl

/-- C5 (counterexample): the claim as stated is false.  `saveSettings`
does not truncate an existing settings file, so saving
`(200, laser off, burst 1)` — 46 bytes — over `dirtySettingsFile` leaves
the old file's trailing `lasercontinuous 1` line in place after the new
bytes, and `loadSettings` then parses that stale line last and returns the
laser flag as true instead of the saved false. -/
theorem settings_roundtrip_counterexample :
    FileSystem.loadSettings
        { interval := 0, isLaserContinuous := false, burstSize := 0 }
        (FileSystem.saveSettingsFile dirtySettingsFile 200 false 1) =
      { interval := 200, isLaserContinuous := true, burstSize := 1 } ∧
    ¬ (∀ (prior : List Char) (interval : Nat) (isLaserContinuous : Bool)
          (burstSize : Nat) (st0 : FileSystem.RunSettings),
        interval < 2 ^ 32 → burstSize < 2 ^ 8 →
        FileSystem.loadSettings st0
            (FileSystem.saveSettingsFile prior interval isLaserContinuous burstSize) =
          { interval := interval, isLaserContinuous := isLaserContinuous,
            burstSize := burstSize }) :=
  ⟨by decide,
   fun h => absurd
     (h dirtySettingsFile 200 false 1
       { interval := 0, isLaserContinuous := false, burstSize := 0 }
       (by decide) (by decide))
     (by decide)⟩

/-- Witness for C5's amended theorem at concrete values and an absent
prior file. -/
theorem settings_roundtrip_witness :
    (1000 : Nat) < 2 ^ 32 ∧ (3 : Nat) < 2 ^ 8 ∧
    ([] : List Char).length ≤
      (FileSystem.saveSettingsContent 1000 true 3).length ∧
    FileSystem.loadSettings
        { interval := 0, isLaserContinuous := false, burstSize := 0 }
        (FileSystem.saveSettingsFile [] 1000 true 3) =
      { interval := 1000, isLaserContinuous := true, burstSize := 3 } :=
  ⟨by decide, by decide, by decide,
   settings_roundtrip 1000 true 3 []
     { interval := 0, isLaserContinuous := false, burstSize := 0 }
     (by decide) (by decide) (by decide)⟩

/-- C9 (amended): after exactly one debounced physical press — a press
tick at `t1` locked in by a stable tick at `t2`, a release tick at `t3`
locked in by a stable tick at `t4`, each lock-in at least the 50 ms settle
window after the last pin change, and no pin change processed inside a
settle window after the release — the press counter is exactly 1, and two
immediately successive calls to the press-consuming query return true then
false; each such debounced press therefore yields exactly one true.
(Without the lock-in proviso a tick processed within the settle window
right after a locked-in release increments the counter again, so a press
can be reported more than once — see the counterexample.) -/
theorem consumePress_single_press (t1 t2 t3 t4 : Nat)
    (h12 : t1 + 50 ≤ t2) (h23 : t2 < t3) (h34 : t3 + 50 ≤ t4)
    (hbound : t4 < 2 ^ 32) :
    (Switches.runUpdates (Switches.init Switches.SWITCH_UP)
        [(0, t1), (0, t2), (1, t3), (1, t4)]).count = 1 ∧
    (Switches.isStartStopPressed
        (Switches.runUpdates (Switches.init Switches.SWITCH_UP)
          [(0, t1), (0, t2), (1, t3), (1, t4)])).1 = true ∧
    (Switches.isStartStopPressed
        (Switches.isStartStopPressed
          (Switches.runUpdates (Switches.init Switches.SWITCH_UP)
            [(0, t1), (0, t2), (1, t3), (1, t4)])).2).1 = false := by
  have he1 : Switches.elapsed32 t1 t1 = 0 := by
    unfold Switches.elapsed32; omega
  have he2 : Switches.elapsed32 t2 t1 = t2 - t1 := by
    unfold Switches.elapsed32; omega
  have he3 : Switches.elapsed32 t3 t3 = 0 := by
    unfold Switches.elapsed32; omega
  have he4 : Switches.elapsed32 t4 t3 = t4 - t3 := by
    unfold Switches.elapsed32; omega
  have hb2 : 50 ≤ t2 - t1 := by omega
  have hb4 : 50 ≤ t4 - t3 := by omega
  have hrun : Switches.runUpdates (Switches.init Switches.SWITCH_UP)
      [(0, t1), (0, t2), (1, t3), (1, t4)] =
      { lastDebounceMillis := t3, count := 1, previousSteadyState := 0,
        lastSteadyState := 1, lastFlickerableState := 1 } := by
    simp [Switches.runUpdates, Switches.update, Switches.init,
      Switches.SWITCH_UP, Switches.SWITCH_DEBOUNCE_PERIOD,
      he1, he2, he3, he4, hb2, hb4]
  refine ⟨?_, ?_, ?_⟩ <;>
    simp [hrun, Switches.isStartStopPressed]

/-- Witness for C9's amended theorem at concrete tick times. -/
theorem consumePress_single_press_witness :
    1000 + 50 ≤ 1060 ∧ (1060 : Nat) < 1100 ∧ 1100 + 50 ≤ 1160 ∧
    (1160 : Nat) < 2 ^ 32 ∧
    ((Switches.runUpdates (Switches.init Switches.SWITCH_UP)
        [(0, 1000), (0, 1060), (1, 1100), (1, 1160)]).count = 1 ∧
     (Switches.isStartStopPressed
        (Switches.runUpdates (Switches.init Switches.SWITCH_UP)
          [(0, 1000), (0, 1060), (1, 1100), (1, 1160)])).1 = true ∧
     (Switches.isStartStopPressed
        (Switches.isStartStopPressed
          (Switches.runUpdates (Switches.init Switches.SWITCH_UP)
            [(0, 1000), (0, 1060), (1, 1100), (1, 1160)])).2).1 = false) :=
  ⟨by decide, by decide, by decide, by decide,
   consumePress_single_press 1000 1060 1100 1160 (by decide) (by decide)
     (by decide) (by decide)⟩

end PLT
